import Mathlib

/-
Verification of the double-entry ledger core of the alyaman school
management system (Python/Django source, accounts/models.py and
employ/models.py), as a shallow embedding in Lean 4.

Modelling conventions:
  - Decimal amounts are rationals.  The source stores two-decimal
    Decimals; the balance tolerance Decimal('0.01') becomes 1/100.
  - A database state is a World: lists of account, journal-entry and
    transaction rows plus the NumberSequence table and the next
    auto-generated primary keys.
  - Django queryset aggregation (filter + Sum) becomes list filter + sum.
  - timezone.now() becomes an explicit argument named now.
  - Name/description text fields that no verified property reads
    (account names, arabic names, ...) are omitted from the row types;
    description strings that participate in a lookup (the teacher
    salary-accrual period description) are modelled.
  - Recursive tree walks take an explicit fuel argument so that they are
    structurally recursive and kernel-computable; the public entry
    points pass fuel (number of account rows + 1), which is shown
    sufficient for the recursion that the guarded source performs.
-/

namespace Alyaman

/-- Account type enumeration, from Account.ACCOUNT_TYPE_CHOICES. -/
inductive AccountType where
  | ASSET | LIABILITY | EQUITY | REVENUE | EXPENSE
deriving DecidableEq

/-- Journal entry type enumeration, from JournalEntry.ENTRY_TYPE_CHOICES. -/
inductive EntryType where
  | MANUAL | ENROLLMENT | PAYMENT | COMPLETION | EXPENSE | SALARY | ADVANCE | ADJUSTMENT
deriving DecidableEq

/-- One row of the Account table (fields the ledger core reads). -/
structure AccountData where
  id : Nat
  code : String
  accountType : AccountType
  parent : Option Nat := none
  balance : Rat := 0
deriving DecidableEq

/-- One row of the JournalEntry table. -/
structure EntryData where
  id : Nat
  reference : String
  date : Nat
  description : String
  entryType : EntryType
  totalAmount : Rat
  isPosted : Bool := false
  postedAt : Option Nat := none
  postedBy : Option Nat := none
  createdBy : Nat
deriving DecidableEq

/-- One row of the Transaction table: one debit or credit leg. -/
structure Txn where
  entryId : Nat
  accountId : Nat
  amount : Rat
  isDebit : Bool
  description : String := ""
  costCenter : Option Nat := none
deriving DecidableEq

/-- The relational state the ledger core reads and writes. -/
structure World where
  accounts : List AccountData
  entries : List EntryData
  txns : List Txn
  seqs : List (String × Nat)
  nextAccountId : Nat
  nextEntryId : Nat
deriving DecidableEq

/-- NumberSequence.next_value: get_or_create the counter row for the key
(last_value defaults to 0), increment it, save, return the new value. -/
def NumberSequence.nextValue (seqs : List (String × Nat)) (key : String) :
    Nat × List (String × Nat) :=
  match seqs.find? (fun p => decide (p.1 = key)) with
  | some p => (p.2 + 1, seqs.map (fun q => if q.1 = key then (q.1, p.2 + 1) else q))
  | none => (1, seqs ++ [(key, 1)])

/-- Current value of a sequence counter, none when the row does not exist. -/
def seqLookup (seqs : List (String × Nat)) (key : String) : Option Nat :=
  (seqs.find? (fun p => decide (p.1 = key))).map (fun p => p.2)

/-- State of the counter after k calls to next_value for the key. -/
def NumberSequence.iterate (seqs : List (String × Nat)) (key : String) :
    Nat → List (String × Nat)
  | 0 => seqs
  | k + 1 => (NumberSequence.nextValue (NumberSequence.iterate seqs key k) key).2

/-- Value returned by the (k+1)-st call to next_value for the key. -/
def NumberSequence.valueAt (seqs : List (String × Nat)) (key : String) (k : Nat) : Nat :=
  (NumberSequence.nextValue (NumberSequence.iterate seqs key k) key).1

/-- Zero-pad a natural number to the given width, as Python "%0Nd". -/
def pad (width : Nat) (n : Nat) : String :=
  let s := toString n
  String.mk (List.replicate (width - s.length) '0') ++ s

/-- Reference format of JournalEntry.save: JE- followed by six digits. -/
def journalReference (n : Nat) : String := "JE-" ++ pad 6 n

/-- Reference format of StudentReceipt.save: SR- followed by six digits. -/
def studentReceiptReference (n : Nat) : String := "SR-" ++ pad 6 n

/-- Reference format of ExpenseEntry.save: EX- followed by six digits. -/
def expenseReference (n : Nat) : String := "EX-" ++ pad 6 n

/-- Reference format of EmployeeAdvance.save: ADV- followed by six digits. -/
def advanceReference (n : Nat) : String := "ADV-" ++ pad 6 n

/-- Look up an account row by primary key. -/
def findAccount (W : World) (aid : Nat) : Option AccountData :=
  W.accounts.find? (fun a => decide (a.id = aid))

/-- Look up an account row by its unique code. -/
def findAccountByCode (W : World) (code : String) : Option AccountData :=
  W.accounts.find? (fun a => decide (a.code = code))

/-- Primary keys of all account rows. -/
def accountIds (W : World) : List Nat := W.accounts.map (fun a => a.id)

/-- Primary keys of the children of an account (rows whose parent is aid). -/
def childAccountIds (W : World) (aid : Nat) : List Nat :=
  (W.accounts.filter (fun a => decide (a.parent = some aid))).map (fun a => a.id)

/-- Account type of a row, looked up by primary key. -/
def typeOf (W : World) (aid : Nat) : Option AccountType :=
  (findAccount W aid).map (fun a => a.accountType)

/-- Cached balance of a row, looked up by primary key (0 when absent). -/
def getBalance (W : World) (aid : Nat) : Rat :=
  ((findAccount W aid).map (fun a => a.balance)).getD 0

/-- Transactions of one account (the transactions related manager). -/
def accountTxns (W : World) (aid : Nat) : List Txn :=
  W.txns.filter (fun t => decide (t.accountId = aid))

/-- Transactions of one journal entry. -/
def entryTxns (W : World) (eid : Nat) : List Txn :=
  W.txns.filter (fun t => decide (t.entryId = eid))

/-- Sum of the amounts of the debit legs of a transaction list. -/
def debitSum (ts : List Txn) : Rat :=
  ((ts.filter (fun t => t.isDebit)).map Txn.amount).sum

/-- Sum of the amounts of the credit legs of a transaction list. -/
def creditSum (ts : List Txn) : Rat :=
  ((ts.filter (fun t => !t.isDebit)).map Txn.amount).sum

/-- Account.get_debit_balance: total debit amount for the account. -/
def Account.get_debit_balance (W : World) (aid : Nat) : Rat :=
  debitSum (accountTxns W aid)

/-- Account.get_credit_balance: total credit amount for the account. -/
def Account.get_credit_balance (W : World) (aid : Nat) : Rat :=
  creditSum (accountTxns W aid)

/-- Account.get_net_balance: debit minus credit for ASSET/EXPENSE accounts,
credit minus debit for LIABILITY/EQUITY/REVENUE accounts. -/
def Account.get_net_balance (W : World) (aid : Nat) : Rat :=
  match findAccount W aid with
  | none => 0
  | some a =>
    if a.accountType = AccountType.ASSET ∨ a.accountType = AccountType.EXPENSE then
      Account.get_debit_balance W aid - Account.get_credit_balance W aid
    else
      Account.get_credit_balance W aid - Account.get_debit_balance W aid

/-- Net balance of an account computed over the transactions of all journal
entries except one; used to express that an entry plus its reversal has
zero combined effect on the account. -/
def Account.net_balance_excluding (W : World) (aid eid : Nat) : Rat :=
  Account.get_net_balance
    { W with txns := W.txns.filter (fun t => decide (t.entryId ≠ eid)) } aid

/-- Account._calculate_rollup_balance: own net balance plus the rollup of
every child, returning 0 for a node already on the visited path.  The
source recursion is bounded by the growing visited set; the extra fuel
argument makes the Lean function structurally recursive, and the public
entry point passes enough fuel that the branch returning 0 on fuel
exhaustion is never taken on the calls the source performs. -/
def Account.calculate_rollup_balance (W : World) :
    Nat → List Nat → Nat → Rat
  | 0, _, _ => 0
  | fuel + 1, visited, aid =>
    if aid ∈ visited then 0
    else
      Account.get_net_balance W aid +
        ((childAccountIds W aid).map
          (fun c => Account.calculate_rollup_balance W fuel (aid :: visited) c)).sum

/-- Account.rollup_balance: the public rollup, starting from an empty
visited set. -/
def Account.rollup_balance (W : World) (aid : Nat) : Rat :=
  Account.calculate_rollup_balance W (W.accounts.length + 1) [] aid

/-- Ids of the subtree rooted at an account, children first and the root
last, the bottom-up order in which recalculate_tree_balances persists
balances.  The source recursion has no cycle guard; fuel bounds it here,
and on the acyclic account forests the workflows build the fuel passed by
recalculate_tree_balances covers the whole subtree. -/
def collectSubtreeIds (W : World) : Nat → Nat → List Nat
  | 0, _ => []
  | fuel + 1, aid =>
    ((childAccountIds W aid).flatMap (fun c => collectSubtreeIds W fuel c)) ++ [aid]

/-- Overwrite the cached balance field of one account row. -/
def setAccountBalance (W : World) (aid : Nat) (q : Rat) : World :=
  { W with accounts :=
      W.accounts.map (fun a => if a.id = aid then { a with balance := q } else a) }

/-- Account.recalculate_tree_balances: recompute and persist the cached
balance of every account in the subtree, children before self, each set
to its own get_net_balance. -/
def Account.recalculate_tree_balances (W : World) (aid : Nat) : World :=
  (collectSubtreeIds W (W.accounts.length + 1) aid).foldl
    (fun acc j => setAccountBalance acc j (Account.get_net_balance acc j)) W

/-- JournalEntry.get_total_debits. -/
def JournalEntry.get_total_debits (W : World) (eid : Nat) : Rat :=
  debitSum (entryTxns W eid)

/-- JournalEntry.get_total_credits. -/
def JournalEntry.get_total_credits (W : World) (eid : Nat) : Rat :=
  creditSum (entryTxns W eid)

/-- JournalEntry.is_balanced: absolute difference of debit and credit
totals below Decimal('0.01'). -/
def JournalEntry.is_balanced (W : World) (eid : Nat) : Bool :=
  decide (|JournalEntry.get_total_debits W eid - JournalEntry.get_total_credits W eid|
    < (1 / 100 : Rat))

/-- Look up a journal entry row by primary key. -/
def findEntry (W : World) (eid : Nat) : Option EntryData :=
  W.entries.find? (fun e => decide (e.id = eid))

/-- Mark a journal entry posted, recording timestamp and actor. -/
def setEntryPosted (W : World) (eid uid now : Nat) : World :=
  { W with entries :=
      W.entries.map (fun e =>
        if e.id = eid then
          { e with isPosted := true, postedAt := some now, postedBy := some uid }
        else e) }

/-- JournalEntry.post_entry: raise when already posted, raise when not
balanced, otherwise set the posted flag, timestamp and actor and run
recalculate_tree_balances for the account of every transaction of the
entry.  A raise is modelled as the unchanged World paired with the
ValueError message. -/
def JournalEntry.post_entry (W : World) (eid uid now : Nat) : World × Option String :=
  match findEntry W eid with
  | none => (W, some "JournalEntry matching query does not exist")
  | some e =>
    if e.isPosted then (W, some "Entry is already posted")
    else if ¬ JournalEntry.is_balanced W eid then (W, some "Entry is not balanced")
    else
      let W1 := setEntryPosted W eid uid now
      let W2 := (entryTxns W1 eid).foldl
        (fun acc t => Account.recalculate_tree_balances acc t.accountId) W1
      (W2, none)

/-- The account ids whose cached balance post_entry rewrites: for every
transaction of the entry, the subtree of the touched account. -/
def recalcIds (W : World) (eid : Nat) : List Nat :=
  (entryTxns W eid).flatMap
    (fun t => collectSubtreeIds W (W.accounts.length + 1) t.accountId)

/-- JournalEntry.objects.create followed by save: allocate the JE-
reference from the journal_entry sequence and append the new unposted
row; returns the new primary key with the new state. -/
def createJournalEntry (W : World) (date : Nat) (description : String)
    (ty : EntryType) (total : Rat) (uid : Nat) : Nat × World :=
  let r := NumberSequence.nextValue W.seqs "journal_entry"
  let nid := W.nextEntryId
  let e : EntryData :=
    { id := nid, reference := journalReference r.1, date := date,
      description := description, entryType := ty, totalAmount := total,
      isPosted := false, createdBy := uid }
  (nid, { W with entries := W.entries ++ [e], seqs := r.2, nextEntryId := nid + 1 })

/-- Transaction.objects.create: append one transaction row. -/
def addTxn (W : World) (t : Txn) : World := { W with txns := W.txns ++ [t] }

/-- The reversing leg built by reverse_entry for one source transaction:
same account and amount, debit/credit flag inverted. -/
def revTxnOf (nid : Nat) (t : Txn) : Txn :=
  { entryId := nid, accountId := t.accountId, amount := t.amount,
    isDebit := !t.isDebit, description := "Reversal: " ++ t.description,
    costCenter := t.costCenter }

/-- JournalEntry.reverse_entry: raise when the source entry is unposted;
otherwise create a new ADJUSTMENT entry whose transactions invert every
debit/credit flag of the source entry, then post it. -/
def JournalEntry.reverse_entry (W : World) (eid uid now : Nat)
    (description : Option String) : World × Except String Nat :=
  match findEntry W eid with
  | none => (W, Except.error "JournalEntry matching query does not exist")
  | some e =>
    if ¬ e.isPosted then (W, Except.error "Cannot reverse unposted entry")
    else
      let p := createJournalEntry W now
        (description.getD ("Reversal of " ++ e.reference))
        EntryType.ADJUSTMENT e.totalAmount uid
      let nid := p.1
      let W1 := { p.2 with txns := p.2.txns ++ (entryTxns W eid).map (revTxnOf nid) }
      let q := JournalEntry.post_entry W1 nid uid now
      match q.2 with
      | some msg => (q.1, Except.error msg)
      | none => (q.1, Except.ok nid)

/-- Validation predicate of the amount field of Transaction:
MinValueValidator(Decimal('0.01')) accepts a value iff it is at least
0.01.  Django runs field validators in full_clean (the ModelForm path);
Model.objects.create, the path the posting workflows use, does not. -/
def transaction_amount_validator (a : Rat) : Bool :=
  decide ((1 / 100 : Rat) ≤ a)

/-- Per-student AR account code, f"1251-{student.id:03d}". -/
def studentARCode (sid : Nat) : String := "1251-" ++ pad 3 sid

/-- Per-course deferred revenue account code, f"21001-{course.id:03d}". -/
def courseDeferredCode (cid : Nat) : String := "21001-" ++ pad 3 cid

/-- Per-course revenue recognition account code, f"4101-{course.id:03d}". -/
def courseRevenueCode (cid : Nat) : String := "4101-" ++ pad 3 cid

/-- Per-teacher salary expense account code, f"501-{teacher.id:03d}". -/
def teacherSalaryCode (tid : Nat) : String := "501-" ++ pad 3 tid

/-- Per-teacher dues liability account code, f"22-{teacher.id:03d}". -/
def teacherDuesCode (tid : Nat) : String := "22-" ++ pad 3 tid

/-- Per-teacher advance asset account code, f"1242-{teacher.id:03d}". -/
def teacherAdvanceCode (tid : Nat) : String := "1242-" ++ pad 3 tid

/-- Per-employee salary expense account code, f"502-{employee.id:03d}". -/
def employeeSalaryCode (eid : Nat) : String := "502-" ++ pad 3 eid

/-- Per-employee advance asset account code, f"1241-{employee.id:03d}". -/
def employeeAdvanceCode (eid : Nat) : String := "1241-" ++ pad 3 eid

/-- The per-entity account families created by the factories. -/
inductive AccountKind where
  | studentAR | courseDeferred | courseRevenue
  | teacherSalary | teacherDues | teacherAdvance
  | employeeSalary | employeeAdvance
deriving DecidableEq

/-- Code produced by each factory for the owning entity id. -/
def AccountKind.codeOf : AccountKind → Nat → String
  | .studentAR, n => studentARCode n
  | .courseDeferred, n => courseDeferredCode n
  | .courseRevenue, n => courseRevenueCode n
  | .teacherSalary, n => teacherSalaryCode n
  | .teacherDues, n => teacherDuesCode n
  | .teacherAdvance, n => teacherAdvanceCode n
  | .employeeSalary, n => employeeSalaryCode n
  | .employeeAdvance, n => employeeAdvanceCode n

/-- Account.objects.get_or_create keyed by the unique code: return the
existing row, or insert one with the given defaults. -/
def getOrCreateAccountByCode (W : World) (code : String) (ty : AccountType)
    (parent : Option Nat) : AccountData × World :=
  match findAccountByCode W code with
  | some a => (a, W)
  | none =>
    let a : AccountData :=
      { id := W.nextAccountId, code := code, accountType := ty,
        parent := parent, balance := 0 }
    (a, { W with accounts := W.accounts ++ [a],
                 nextAccountId := W.nextAccountId + 1 })

/-- Account.get_or_create_student_ar_account: ensure the AR parent 1251
exists, then get-or-create the per-student ASSET child 1251-NNN. -/
def Account.get_or_create_student_ar_account (W : World) (sid : Nat) :
    AccountData × World :=
  let p := getOrCreateAccountByCode W "1251" AccountType.ASSET none
  getOrCreateAccountByCode p.2 (studentARCode sid) AccountType.ASSET (some p.1.id)

/-- Account.get_or_create_course_deferred_account: ensure the deferred
revenue parent 21 exists, get-or-create the LIABILITY child 21001-NNN,
then get-or-create the REVENUE child 4101-NNN; the source returns the
last account variable assigned, the 4101 REVENUE account. -/
def Account.get_or_create_course_deferred_account (W : World) (cid : Nat) :
    AccountData × World :=
  let p := getOrCreateAccountByCode W "21" AccountType.LIABILITY none
  let q := getOrCreateAccountByCode p.2 (courseDeferredCode cid)
    AccountType.LIABILITY (some p.1.id)
  getOrCreateAccountByCode q.2 (courseRevenueCode cid)
    AccountType.REVENUE (some p.1.id)

/-- get_or_create_teacher_salary_account: parent 501, child 501-NNN. -/
def get_or_create_teacher_salary_account (W : World) (tid : Nat) :
    AccountData × World :=
  let p := getOrCreateAccountByCode W "501" AccountType.EXPENSE none
  getOrCreateAccountByCode p.2 (teacherSalaryCode tid) AccountType.EXPENSE (some p.1.id)

/-- get_or_create_teacher_dues_account: parent 22, child 22-NNN. -/
def get_or_create_teacher_dues_account (W : World) (tid : Nat) :
    AccountData × World :=
  let p := getOrCreateAccountByCode W "22" AccountType.LIABILITY none
  getOrCreateAccountByCode p.2 (teacherDuesCode tid) AccountType.LIABILITY (some p.1.id)

/-- get_or_create_teacher_advance_account: parent 1242, child 1242-NNN. -/
def get_or_create_teacher_advance_account (W : World) (tid : Nat) :
    AccountData × World :=
  let p := getOrCreateAccountByCode W "1242" AccountType.ASSET none
  getOrCreateAccountByCode p.2 (teacherAdvanceCode tid) AccountType.ASSET (some p.1.id)

/-- get_or_create_employee_salary_account: parent 502, child 502-NNN. -/
def get_or_create_employee_salary_account (W : World) (eid : Nat) :
    AccountData × World :=
  let p := getOrCreateAccountByCode W "502" AccountType.EXPENSE none
  getOrCreateAccountByCode p.2 (employeeSalaryCode eid) AccountType.EXPENSE (some p.1.id)

/-- get_or_create_employee_advance_account: parent 1241, child 1241-NNN. -/
def get_or_create_employee_advance_account (W : World) (eid : Nat) :
    AccountData × World :=
  let p := getOrCreateAccountByCode W "1241" AccountType.ASSET none
  getOrCreateAccountByCode p.2 (employeeAdvanceCode eid) AccountType.ASSET (some p.1.id)

/-- Payment method choices shared by receipts, expenses and advances. -/
inductive PaymentMethod where
  | CASH | BANK | CARD | TRANSFER
deriving DecidableEq

/-- ExpenseEntry.get_payment_account: cash 121 for CASH, bank 1120 for
BANK, CARD and TRANSFER. -/
def get_payment_account (W : World) (m : PaymentMethod) : AccountData × World :=
  match m with
  | .CASH => getOrCreateAccountByCode W "121" AccountType.ASSET none
  | _ => getOrCreateAccountByCode W "1120" AccountType.ASSET none

/-- Studentenrollment row (fields the accrual workflow reads). -/
structure Enrollment where
  studentId : Nat
  courseId : Nat
  enrollmentDate : Nat
  totalAmount : Rat
  discountPercent : Rat
  discountAmount : Rat
  enrollmentJournalEntry : Option Nat := none
deriving DecidableEq

/-- Studentenrollment.net_amount: total minus percentage discount minus
fixed discount, floored at zero. -/
def Enrollment.net_amount (e : Enrollment) : Rat :=
  max 0 (e.totalAmount - e.totalAmount * e.discountPercent / 100 - e.discountAmount)

/-- Studentenrollment.create_accrual_enrollment_entry: return the linked
entry when one is already set; silently return nothing when the net
amount is not positive; otherwise resolve the student AR and course
deferred accounts, create and post DR student-AR / CR deferred for the
net amount, link the entry to the enrollment and return it. -/
def Studentenrollment.create_accrual_enrollment_entry (W : World)
    (enr : Enrollment) (uid now : Nat) :
    World × Enrollment × Except String (Option Nat) :=
  match enr.enrollmentJournalEntry with
  | some eid => (W, enr, Except.ok (some eid))
  | none =>
    let net := enr.net_amount
    if net ≤ 0 then (W, enr, Except.ok none)
    else
      let a := Account.get_or_create_student_ar_account W enr.studentId
      let b := Account.get_or_create_course_deferred_account a.2 enr.courseId
      let c := createJournalEntry b.2 enr.enrollmentDate
        "Student enrollment" EntryType.ENROLLMENT net uid
      let W4 := addTxn c.2
        { entryId := c.1, accountId := a.1.id, amount := net, isDebit := true,
          description := "enrollment" }
      let W5 := addTxn W4
        { entryId := c.1, accountId := b.1.id, amount := net, isDebit := false,
          description := "Deferred revenue" }
      let q := JournalEntry.post_entry W5 c.1 uid now
      match q.2 with
      | some msg => (q.1, enr, Except.error msg)
      | none =>
        (q.1, { enr with enrollmentJournalEntry := some c.1 }, Except.ok (some c.1))

/-- StudentReceipt row (fields the payment workflow reads); studentId is
the student the receipt resolves through student_profile or student. -/
structure Receipt where
  date : Nat
  paidAmount : Rat
  studentId : Option Nat
  journalEntry : Option Nat := none
deriving DecidableEq

/-- StudentReceipt.create_accrual_journal_entry: return the linked entry
when set; silently return nothing when the paid amount is not positive;
otherwise get-or-create cash 121, resolve the student AR account
(raising when no student is linked), create and post DR cash / CR
student-AR, link and return the entry. -/
def StudentReceipt.create_accrual_journal_entry (W : World) (r : Receipt)
    (uid now : Nat) : World × Receipt × Except String (Option Nat) :=
  match r.journalEntry with
  | some eid => (W, r, Except.ok (some eid))
  | none =>
    if r.paidAmount ≤ 0 then (W, r, Except.ok none)
    else
      let cash := getOrCreateAccountByCode W "121" AccountType.ASSET none
      match r.studentId with
      | none => (cash.2, r, Except.error "No student AR account found")
      | some sid =>
        let a := Account.get_or_create_student_ar_account cash.2 sid
        let c := createJournalEntry a.2 r.date
          "Student payment" EntryType.PAYMENT r.paidAmount uid
        let W4 := addTxn c.2
          { entryId := c.1, accountId := cash.1.id, amount := r.paidAmount,
            isDebit := true, description := "Cash received" }
        let W5 := addTxn W4
          { entryId := c.1, accountId := a.1.id, amount := r.paidAmount,
            isDebit := false, description := "Payment received" }
        let q := JournalEntry.post_entry W5 c.1 uid now
        match q.2 with
        | some msg => (q.1, r, Except.error msg)
        | none =>
          (q.1, { r with journalEntry := some c.1 }, Except.ok (some c.1))

/-- ExpenseEntry row (fields the expense workflow reads). -/
structure Expense where
  accountId : Nat
  date : Nat
  description : String
  amount : Rat
  paymentMethod : PaymentMethod
  journalEntry : Option Nat := none
deriving DecidableEq

/-- ExpenseEntry.create_journal_entry: return the linked entry when set;
otherwise create and post DR expense-account / CR payment-account for
the amount (no positivity check), link and return the entry. -/
def ExpenseEntry.create_journal_entry (W : World) (x : Expense)
    (uid now : Nat) : World × Expense × Except String (Option Nat) :=
  match x.journalEntry with
  | some eid => (W, x, Except.ok (some eid))
  | none =>
    let pay := get_payment_account W x.paymentMethod
    let c := createJournalEntry pay.2 x.date
      ("Expense - " ++ x.description) EntryType.EXPENSE x.amount uid
    let W4 := addTxn c.2
      { entryId := c.1, accountId := x.accountId, amount := x.amount,
        isDebit := true, description := x.description }
    let W5 := addTxn W4
      { entryId := c.1, accountId := pay.1.id, amount := x.amount,
        isDebit := false, description := "Payment" }
    let q := JournalEntry.post_entry W5 c.1 uid now
    match q.2 with
    | some msg => (q.1, x, Except.error msg)
    | none =>
      (q.1, { x with journalEntry := some c.1 }, Except.ok (some c.1))

/-- EmployeeAdvance row (fields the advance workflow reads). -/
structure Advance where
  employeeId : Nat
  date : Nat
  amount : Rat
  journalEntry : Option Nat := none
deriving DecidableEq

/-- EmployeeAdvance.create_advance_entry: return the linked entry when
set; otherwise resolve the employee advance and cash accounts, create
and post DR employee-advance / CR cash for the amount, link and return
the entry. -/
def EmployeeAdvance.create_advance_entry (W : World) (adv : Advance)
    (uid now : Nat) : World × Advance × Except String (Option Nat) :=
  match adv.journalEntry with
  | some eid => (W, adv, Except.ok (some eid))
  | none =>
    let a := get_or_create_employee_advance_account W adv.employeeId
    let cash := getOrCreateAccountByCode a.2 "121" AccountType.ASSET none
    let c := createJournalEntry cash.2 adv.date
      "Employee advance" EntryType.ADVANCE adv.amount uid
    let W4 := addTxn c.2
      { entryId := c.1, accountId := a.1.id, amount := adv.amount,
        isDebit := true, description := "Advance" }
    let W5 := addTxn W4
      { entryId := c.1, accountId := cash.1.id, amount := adv.amount,
        isDebit := false, description := "Cash advance payment" }
    let q := JournalEntry.post_entry W5 c.1 uid now
    match q.2 with
    | some msg => (q.1, adv, Except.error msg)
    | none =>
      (q.1, { adv with journalEntry := some c.1 }, Except.ok (some c.1))

/-- Teacher row for the salary accrual workflow.  The gross field models
the value of calculate_monthly_salary(year, month) for the period under
consideration; that method aggregates attendance rows only, which no
posting workflow writes, so it is constant across the two invocations
an idempotency property compares. -/
structure Teacher where
  id : Nat
  name : String
  gross : Rat
deriving DecidableEq

/-- The deterministic period description used as the duplicate-accrual
lookup key, f"Teacher salary accrual - {name} ({month:02d}/{year})". -/
def teacherPeriodDescription (t : Teacher) (year month : Nat) : String :=
  "Teacher salary accrual - " ++ t.name ++ " (" ++ pad 2 month ++ "/" ++
    toString year ++ ")"

/-- Teacher.create_salary_accrual_entry: raise when the gross salary of
the period is not positive; return the existing SALARY entry with the
period description when one exists; otherwise resolve the salary and
dues accounts, create and post DR salary-expense / CR teacher-dues for
the gross amount and return the new entry. -/
def Teacher.create_salary_accrual_entry (W : World) (t : Teacher)
    (uid now year month : Nat) : World × Except String Nat :=
  if t.gross ≤ 0 then (W, Except.error "No salary calculated for this period")
  else
    let desc := teacherPeriodDescription t year month
    match (W.entries.filter (fun e =>
        decide (e.description = desc ∧ e.entryType = EntryType.SALARY))).head? with
    | some ex => (W, Except.ok ex.id)
    | none =>
      let a := get_or_create_teacher_salary_account W t.id
      let b := get_or_create_teacher_dues_account a.2 t.id
      let c := createJournalEntry b.2 now desc EntryType.SALARY t.gross uid
      let W4 := addTxn c.2
        { entryId := c.1, accountId := a.1.id, amount := t.gross,
          isDebit := true, description := "Salary expense" }
      let W5 := addTxn W4
        { entryId := c.1, accountId := b.1.id, amount := t.gross,
          isDebit := false, description := "Salary due" }
      let q := JournalEntry.post_entry W5 c.1 uid now
      match q.2 with
      | some msg => (q.1, Except.error msg)
      | none => (q.1, Except.ok c.1)

/-- Referential well-formedness of a database state: primary keys already
issued are below the next auto-increment values, and transactions refer
to existing journal entries. -/
def WellFormed (W : World) : Prop :=
  (∀ e ∈ W.entries, e.id < W.nextEntryId) ∧
  (∀ t ∈ W.txns, t.entryId < W.nextEntryId) ∧
  (∀ a ∈ W.accounts, a.id < W.nextAccountId)

instance (W : World) : Decidable (WellFormed W) := by
  unfold WellFormed; infer_instance

/-- Projection selecting a successful workflow result carrying an entry. -/
def okSome (r : Except String (Option Nat)) : Option Nat :=
  match r with
  | Except.ok (some e) => some e
  | _ => none

/-- Projection selecting a successful workflow result. -/
def okVal (r : Except String Nat) : Option Nat :=
  match r with
  | Except.ok e => some e
  | _ => none

/-- An empty database state. -/
def emptyWorld : World :=
  { accounts := [], entries := [], txns := [], seqs := [],
    nextAccountId := 1, nextEntryId := 1 }

/-- A state with one balanced unposted manual entry over two asset
accounts: DR 121 for 100, CR 1251-007 for 100. -/
def postExampleWorld : World :=
  { accounts :=
      [ { id := 1, code := "121", accountType := AccountType.ASSET },
        { id := 2, code := "1251-007", accountType := AccountType.ASSET } ],
    entries :=
      [ { id := 1, reference := "JE-000001", date := 0, description := "",
          entryType := EntryType.MANUAL, totalAmount := 100, createdBy := 5 } ],
    txns :=
      [ { entryId := 1, accountId := 1, amount := 100, isDebit := true },
        { entryId := 1, accountId := 2, amount := 100, isDebit := false } ],
    seqs := [("journal_entry", 1)], nextAccountId := 3, nextEntryId := 2 }

/-- The same state with the entry already posted, for exercising the
reversal workflow. -/
def reverseExampleWorld : World :=
  { postExampleWorld with
    entries :=
      [ { id := 1, reference := "JE-000001", date := 0, description := "",
          entryType := EntryType.MANUAL, totalAmount := 100, isPosted := true,
          postedAt := some 0, postedBy := some 5, createdBy := 5 } ] }

/-- A state whose two accounts form a parent cycle (1 is the parent of 2
and 2 the parent of 1), with unbalanced debit legs so the partial rollup
sums are visibly distinct. -/
def cyclicWorld : World :=
  { accounts :=
      [ { id := 1, code := "A", accountType := AccountType.ASSET, parent := some 2 },
        { id := 2, code := "B", accountType := AccountType.ASSET, parent := some 1 } ],
    entries := [],
    txns :=
      [ { entryId := 1, accountId := 1, amount := 30, isDebit := true },
        { entryId := 1, accountId := 2, amount := 12, isDebit := true } ],
    seqs := [], nextAccountId := 3, nextEntryId := 2 }

/-- A three-level acyclic account chain 1 <- 2 <- 3 with one debit leg
per account. -/
def chainWorld : World :=
  { accounts :=
      [ { id := 1, code := "R", accountType := AccountType.ASSET },
        { id := 2, code := "M", accountType := AccountType.ASSET, parent := some 1 },
        { id := 3, code := "L", accountType := AccountType.ASSET, parent := some 2 } ],
    entries := [],
    txns :=
      [ { entryId := 1, accountId := 1, amount := 5, isDebit := true },
        { entryId := 1, accountId := 2, amount := 7, isDebit := true },
        { entryId := 1, accountId := 3, amount := 11, isDebit := true } ],
    seqs := [], nextAccountId := 4, nextEntryId := 2 }

/-- Enrollment priced 2000 with a 10 percent discount: net amount 1800. -/
def exampleEnrollment : Enrollment :=
  { studentId := 7, courseId := 3, enrollmentDate := 10, totalAmount := 2000,
    discountPercent := 10, discountAmount := 0 }

/-- Enrollment whose fixed discount exceeds the total: net amount 0. -/
def zeroEnrollment : Enrollment :=
  { studentId := 7, courseId := 3, enrollmentDate := 10, totalAmount := 100,
    discountPercent := 0, discountAmount := 150 }

/-- Receipt of 1800 for student 7. -/
def exampleReceipt : Receipt :=
  { date := 3, paidAmount := 1800, studentId := some 7 }

/-- Receipt with zero paid amount. -/
def zeroReceipt : Receipt :=
  { date := 3, paidAmount := 0, studentId := some 7 }

/-- A state holding only the expense account 503. -/
def expenseWorld : World :=
  { accounts := [ { id := 1, code := "503", accountType := AccountType.EXPENSE } ],
    entries := [], txns := [], seqs := [],
    nextAccountId := 2, nextEntryId := 1 }

/-- A cash expense of 300 against account 503. -/
def exampleExpense : Expense :=
  { accountId := 1, date := 2, description := "rent", amount := 300,
    paymentMethod := PaymentMethod.CASH }

/-- A cash expense with a negative amount, which nothing rejects. -/
def negativeExpense : Expense :=
  { accountId := 1, date := 2, description := "rent", amount := -5,
    paymentMethod := PaymentMethod.CASH }

/-- An advance of 500 for employee 9. -/
def exampleAdvance : Advance :=
  { employeeId := 9, date := 1, amount := 500 }

/-- An hourly teacher whose September 2024 gross salary is 4000. -/
def exampleTeacher : Teacher :=
  { id := 4, name := "T", gross := 4000 }

/-- A state with one unposted journal entry that has no transactions. -/
def zeroLegWorld : World :=
  { accounts := [],
    entries :=
      [ { id := 1, reference := "JE-000001", date := 0, description := "",
          entryType := EntryType.MANUAL, totalAmount := 0, createdBy := 5 } ],
    txns := [], seqs := [("journal_entry", 1)],
    nextAccountId := 1, nextEntryId := 2 }

/-- A state with one unposted journal entry that has exactly one leg. -/
def oneLegWorld : World :=
  { accounts := [ { id := 1, code := "121", accountType := AccountType.ASSET } ],
    entries :=
      [ { id := 1, reference := "JE-000001", date := 0, description := "",
          entryType := EntryType.MANUAL, totalAmount := 100, createdBy := 5 } ],
    txns := [ { entryId := 1, accountId := 1, amount := 100, isDebit := true } ],
    seqs := [("journal_entry", 1)], nextAccountId := 2, nextEntryId := 2 }

/-- The draft ADJUSTMENT entry row that reverse_entry creates before
posting it. -/
def reversalEntryRecord (W : World) (e : EntryData) (uid now : Nat) : EntryData :=
  { id := W.nextEntryId,
    reference := journalReference (NumberSequence.nextValue W.seqs "journal_entry").1,
    date := now, description := "Reversal of " ++ e.reference,
    entryType := EntryType.ADJUSTMENT, totalAmount := e.totalAmount,
    isPosted := false, createdBy := uid }

/-- The state reverse_entry has built just before posting the reversal:
the new draft entry row plus one flag-inverted copy of every transaction
of the reversed entry. -/
def reversalDraftWorld (W : World) (eid : Nat) (e : EntryData) (uid now : Nat) :
    World :=
  { accounts := W.accounts,
    entries := W.entries ++ [reversalEntryRecord W e uid now],
    txns := W.txns ++ (entryTxns W eid).map (revTxnOf W.nextEntryId),
    seqs := (NumberSequence.nextValue W.seqs "journal_entry").2,
    nextAccountId := W.nextAccountId,
    nextEntryId := W.nextEntryId + 1 }

/- ------------------------------------------------------------------ -/
/- Generic list helpers.                                              -/
/- ------------------------------------------------------------------ -/

theorem find?_map_pred {α : Type} (l : List α) (f : α → α) (p : α → Bool)
    (h : ∀ a, p (f a) = p a) :
    (l.map f).find? p = (l.find? p).map f := by
  rw [List.find?_map]
  have hp : p ∘ f = p := by funext a; exact h a
  rw [hp]

theorem flatMap_congr {α β : Type} (l : List α) (f g : α → List β)
    (h : ∀ a ∈ l, f a = g a) : l.flatMap f = l.flatMap g := by
  induction l with
  | nil => rfl
  | cons x xs ih =>
    simp only [List.flatMap_cons]
    rw [h x (List.mem_cons_self x xs), ih (fun a ha => h a (List.mem_cons_of_mem x ha))]

theorem find?_eq_none_of_all {α : Type} (l : List α) (p : α → Bool)
    (h : ∀ a ∈ l, p a = false) : l.find? p = none := by
  induction l with
  | nil => rfl
  | cons x xs ih =>
    rw [List.find?_cons]
    rw [h x (List.mem_cons_self x xs)]
    exact ih (fun a ha => h a (List.mem_cons_of_mem x ha))

/- ------------------------------------------------------------------ -/
/- C3: the net-balance sign convention.                               -/
/- ------------------------------------------------------------------ -/

/-- C3: for every account, the net balance equals debit total minus
credit total when the account type is ASSET or EXPENSE, and credit
total minus debit total when it is LIABILITY, EQUITY, or REVENUE. -/
theorem C3_net_balance_sign_convention (W : World) (aid : Nat) (a : AccountData)
    (ha : findAccount W aid = some a) :
    ((a.accountType = AccountType.ASSET ∨ a.accountType = AccountType.EXPENSE) →
      Account.get_net_balance W aid =
        debitSum (accountTxns W aid) - creditSum (accountTxns W aid)) ∧
    ((a.accountType = AccountType.LIABILITY ∨ a.accountType = AccountType.EQUITY ∨
        a.accountType = AccountType.REVENUE) →
      Account.get_net_balance W aid =
        creditSum (accountTxns W aid) - debitSum (accountTxns W aid)) := by
  have hnet : Account.get_net_balance W aid =
      if a.accountType = AccountType.ASSET ∨ a.accountType = AccountType.EXPENSE then
        Account.get_debit_balance W aid - Account.get_credit_balance W aid
      else
        Account.get_credit_balance W aid - Account.get_debit_balance W aid := by
    unfold Account.get_net_balance
    rw [ha]
  constructor
  · intro h
    rw [hnet, if_pos h]
    rfl
  · intro h
    have hne : ¬ (a.accountType = AccountType.ASSET ∨
        a.accountType = AccountType.EXPENSE) := by
      rcases h with h | h | h <;> rw [h] <;> decide
    rw [hnet, if_neg hne]
    rfl

/-- Witness for C3 at a concrete asset account with one 100 debit leg. -/
theorem C3_net_balance_sign_convention_witness :
    Account.get_net_balance postExampleWorld 1 =
      debitSum (accountTxns postExampleWorld 1) - creditSum (accountTxns postExampleWorld 1) ∧
    Account.get_net_balance postExampleWorld 1 = 100 := by
  constructor
  · exact (C3_net_balance_sign_convention postExampleWorld 1
      { id := 1, code := "121", accountType := AccountType.ASSET }
      (by decide)).1 (Or.inl rfl)
  · with_unfolding_all decide

/- ------------------------------------------------------------------ -/
/- C10: silent no-op on non-positive document amounts.                -/
/- ------------------------------------------------------------------ -/

/-- C10: with no linked entry and a non-positive monetary amount, the
enrollment and receipt posting workflows return no journal entry, raise
no error, and leave the state untouched. -/
theorem C10_nonpositive_amount_silent_noop (W : World) (enr : Enrollment)
    (r : Receipt) (uid now : Nat) :
    (enr.enrollmentJournalEntry = none → enr.net_amount ≤ 0 →
      Studentenrollment.create_accrual_enrollment_entry W enr uid now =
        (W, enr, Except.ok none)) ∧
    (r.journalEntry = none → r.paidAmount ≤ 0 →
      StudentReceipt.create_accrual_journal_entry W r uid now =
        (W, r, Except.ok none)) := by
  constructor
  · intro h1 h2
    unfold Studentenrollment.create_accrual_enrollment_entry
    rw [h1]
    simp only [if_pos h2]
  · intro h1 h2
    unfold StudentReceipt.create_accrual_journal_entry
    rw [h1]
    simp only [if_pos h2]

/-- Witness for C10: an over-discounted enrollment and a zero receipt
are silent no-ops on the empty state. -/
theorem C10_nonpositive_amount_silent_noop_witness :
    Studentenrollment.create_accrual_enrollment_entry emptyWorld zeroEnrollment 5 0 =
      (emptyWorld, zeroEnrollment, Except.ok none) ∧
    StudentReceipt.create_accrual_journal_entry emptyWorld zeroReceipt 5 0 =
      (emptyWorld, zeroReceipt, Except.ok none) := by
  constructor
  · exact (C10_nonpositive_amount_silent_noop emptyWorld zeroEnrollment zeroReceipt 5 0).1
      rfl (by with_unfolding_all decide)
  · exact (C10_nonpositive_amount_silent_noop emptyWorld zeroEnrollment zeroReceipt 5 0).2
      rfl (by with_unfolding_all decide)

/- ------------------------------------------------------------------ -/
/- C9: the number sequence and document reference formats.            -/
/- ------------------------------------------------------------------ -/

theorem seq_nextValue_val (s : List (String × Nat)) (key : String) :
    (NumberSequence.nextValue s key).1 = (seqLookup s key).getD 0 + 1 := by
  unfold NumberSequence.nextValue seqLookup
  cases h : s.find? (fun p => decide (p.1 = key)) with
  | none => simp [h]
  | some p => simp [h]

theorem seq_nextValue_lookup (s : List (String × Nat)) (key : String) :
    seqLookup (NumberSequence.nextValue s key).2 key =
      some ((seqLookup s key).getD 0 + 1) := by
  unfold NumberSequence.nextValue seqLookup
  cases h : s.find? (fun p => decide (p.1 = key)) with
  | none =>
    simp only [h, List.find?_append, Option.map_none', Option.getD_none]
    simp
  | some p =>
    have hkey : p.1 = key := by simpa using List.find?_some h
    simp only [h]
    rw [find?_map_pred s _ _ (by intro a; by_cases ha : a.1 = key <;> simp [ha])]
    rw [h]
    simp [hkey]

theorem seq_lookup_iterate (s : List (String × Nat)) (key : String) (k : Nat) :
    (seqLookup (NumberSequence.iterate s key k) key).getD 0 =
      (seqLookup s key).getD 0 + k := by
  induction k with
  | zero => simp [NumberSequence.iterate]
  | succ k ih =>
    show (seqLookup (NumberSequence.nextValue
      (NumberSequence.iterate s key k) key).2 key).getD 0 = _
    rw [seq_nextValue_lookup]
    simp [ih]
    omega

/-- C9: the first next_value call for a key returns 1, the (k+1)-st call
returns the stored value plus k+1 (so consecutive calls return
consecutive integers and no value is ever reused), and document
references are the type prefix followed by the value zero-padded to six
digits. -/
theorem C9_number_sequence (s : List (String × Nat)) (key : String) :
    (seqLookup s key = none → (NumberSequence.nextValue s key).1 = 1) ∧
    (∀ k, NumberSequence.valueAt s key k = (seqLookup s key).getD 0 + k + 1) ∧
    (∀ j k, j ≠ k →
      NumberSequence.valueAt s key j ≠ NumberSequence.valueAt s key k) ∧
    (journalReference 1 = "JE-000001" ∧ studentReceiptReference 42 = "SR-000042" ∧
      expenseReference 7 = "EX-000007" ∧ advanceReference 123456 = "ADV-123456") ∧
    (∀ n, (pad 6 n).length = max 6 (toString n).length) := by
  have hval : ∀ k, NumberSequence.valueAt s key k = (seqLookup s key).getD 0 + k + 1 := by
    intro k
    rw [NumberSequence.valueAt, seq_nextValue_val, seq_lookup_iterate]
  refine ⟨?_, hval, ?_, ?_, ?_⟩
  · intro h
    rw [seq_nextValue_val, h]
    rfl
  · intro j k hne heq
    rw [hval j, hval k] at heq
    omega
  · refine ⟨?_, ?_, ?_, ?_⟩ <;> with_unfolding_all decide
  · intro n
    show (String.mk (List.replicate (6 - (toString n).length) '0') ++ toString n).length = _
    rw [String.length_append]
    show (List.replicate (6 - (toString n).length) '0').length + _ = _
    rw [List.length_replicate]
    rcases Nat.le_total 6 (toString n).length with h | h
    · rw [Nat.max_eq_right h]
      omega
    · rw [Nat.max_eq_left h]
      omega

/-- Witness for C9 on the empty sequence table: first value 1, third
value 3, and the values of distinct calls differ. -/
theorem C9_number_sequence_witness :
    (NumberSequence.nextValue [] "journal_entry").1 = 1 ∧
    NumberSequence.valueAt [] "journal_entry" 2 = 3 ∧
    NumberSequence.valueAt [] "journal_entry" 0 ≠
      NumberSequence.valueAt [] "journal_entry" 5 := by
  refine ⟨(C9_number_sequence [] "journal_entry").1 rfl, ?_, ?_⟩
  · have h := (C9_number_sequence [] "journal_entry").2.1 2
    simpa [seqLookup] using h
  · exact (C9_number_sequence [] "journal_entry").2.2.1 0 5 (by decide)

/- ------------------------------------------------------------------ -/
/- C8: account code ranges of the per-entity factories.               -/
/- ------------------------------------------------------------------ -/

theorem append_ne_of_zip_any_ne :
    ∀ p q : List Char, ((p.zip q).any fun ab => decide (ab.1 ≠ ab.2)) = true →
      ∀ x y : List Char, p ++ x ≠ q ++ y := by
  intro p
  induction p with
  | nil => intro q h; cases q <;> simp at h
  | cons a p ih =>
    intro q h x y
    cases q with
    | nil => simp at h
    | cons b q =>
      rw [List.zip_cons_cons, List.any_cons] at h
      intro heq
      rw [List.cons_append, List.cons_append] at heq
      have hab : a = b := (List.cons.injEq _ _ _ _ ▸ heq : _ ∧ _).1
      have htl : p ++ x = q ++ y := (List.cons.injEq _ _ _ _ ▸ heq : _ ∧ _).2
      cases hd : decide (a ≠ b) with
      | true => exact (of_decide_eq_true hd) hab
      | false =>
        rw [hd, Bool.false_or] at h
        exact ih q h x y htl

theorem string_append_ne (p q x y : String)
    (h : ((p.data.zip q.data).any fun ab => decide (ab.1 ≠ ab.2)) = true) :
    p ++ x ≠ q ++ y := by
  intro heq
  have hd := congrArg String.data heq
  rw [String.data_append, String.data_append] at hd
  exact append_ne_of_zip_any_ne p.data q.data h x.data y.data hd

theorem getOrCreate_code (W : World) (code : String) (ty : AccountType)
    (parent : Option Nat) :
    (getOrCreateAccountByCode W code ty parent).1.code = code := by
  unfold getOrCreateAccountByCode
  cases h : findAccountByCode W code with
  | none => simp [h]
  | some a =>
    have : a.code = code := by simpa using List.find?_some h
    simp [h, this]

theorem getOrCreate_found (W : World) (code : String) (ty : AccountType)
    (parent : Option Nat) :
    findAccountByCode (getOrCreateAccountByCode W code ty parent).2 code =
      some (getOrCreateAccountByCode W code ty parent).1 := by
  unfold getOrCreateAccountByCode
  cases h : findAccountByCode W code with
  | some a => simp [h]
  | none =>
    simp only [h]
    unfold findAccountByCode at h ⊢
    rw [List.find?_append, h]
    simp

theorem getOrCreate_parent_of_new (W : World) (code : String) (ty : AccountType)
    (parent : Option Nat) (h : findAccountByCode W code = none) :
    (getOrCreateAccountByCode W code ty parent).1.parent = parent := by
  unfold getOrCreateAccountByCode
  rw [h]

theorem append_pad_ne_short (q r : String) (n : Nat) (h : r.length < q.length) :
    q ++ pad 3 n ≠ r := by
  intro hc
  have hl := congrArg String.length hc
  rw [String.length_append] at hl
  omega

theorem getOrCreate_mono (W : World) (c c' : String) (ty : AccountType)
    (parent : Option Nat) (a : AccountData) (h : findAccountByCode W c = some a) :
    findAccountByCode (getOrCreateAccountByCode W c' ty parent).2 c = some a := by
  unfold getOrCreateAccountByCode
  cases h' : findAccountByCode W c' with
  | some b => simpa [h'] using h
  | none =>
    simp only [h']
    unfold findAccountByCode at h ⊢
    rw [List.find?_append, h]
    rfl

/-- C8 amended: the factories produce codes 1251-NNN (student AR, under
parent 1251), 21001-NNN (course deferred revenue liability, under parent
21) and 4101-NNN (course recognized revenue, the account the factory
returns), 501-NNN / 502-NNN (teacher / employee salary expense),
1242-NNN / 1241-NNN (teacher / employee advance asset) and 22-NNN
(teacher dues), with NNN the entity id zero-padded to three digits, and
the codes of distinct entity kinds never collide. -/
theorem C8_account_code_ranges :
    (∀ W sid, (Account.get_or_create_student_ar_account W sid).1.code =
      studentARCode sid) ∧
    (∀ W sid, findAccountByCode W (studentARCode sid) = none →
      (Account.get_or_create_student_ar_account W sid).1.parent =
        some (getOrCreateAccountByCode W "1251" AccountType.ASSET none).1.id) ∧
    (∀ W cid, (Account.get_or_create_course_deferred_account W cid).1.code =
        courseRevenueCode cid ∧
      (findAccountByCode (Account.get_or_create_course_deferred_account W cid).2
        (courseDeferredCode cid)).isSome = true) ∧
    (∀ W tid, (get_or_create_teacher_salary_account W tid).1.code =
      teacherSalaryCode tid) ∧
    (∀ W tid, (get_or_create_teacher_dues_account W tid).1.code =
      teacherDuesCode tid) ∧
    (∀ W tid, (get_or_create_teacher_advance_account W tid).1.code =
      teacherAdvanceCode tid) ∧
    (∀ W eid, (get_or_create_employee_salary_account W eid).1.code =
      employeeSalaryCode eid) ∧
    (∀ W eid, (get_or_create_employee_advance_account W eid).1.code =
      employeeAdvanceCode eid) ∧
    (∀ k₁ k₂ : AccountKind, k₁ ≠ k₂ → ∀ i j, k₁.codeOf i ≠ k₂.codeOf j) := by
  refine ⟨?_, ?_, ?_, ?_, ?_, ?_, ?_, ?_, ?_⟩
  · intro W sid
    unfold Account.get_or_create_student_ar_account
    exact getOrCreate_code _ _ _ _
  · intro W sid h
    have hne : studentARCode sid ≠ "1251" :=
      append_pad_ne_short "1251-" "1251" sid (by decide)
    have h2 : findAccountByCode
        (getOrCreateAccountByCode W "1251" AccountType.ASSET none).2
        (studentARCode sid) = none := by
      unfold getOrCreateAccountByCode
      cases h1 : findAccountByCode W "1251" with
      | some b => simpa [h1] using h
      | none =>
        simp only [h1]
        unfold findAccountByCode at h ⊢
        rw [List.find?_append, h]
        simp only [Option.none_or]
        apply find?_eq_none_of_all
        intro a ha
        simp only [List.mem_singleton] at ha
        subst ha
        simp only [decide_eq_false_iff_not]
        exact fun hc => hne hc.symm
    show (getOrCreateAccountByCode
        (getOrCreateAccountByCode W "1251" AccountType.ASSET none).2
        (studentARCode sid) AccountType.ASSET
        (some (getOrCreateAccountByCode W "1251" AccountType.ASSET none).1.id)).1.parent = _
    rw [getOrCreate_parent_of_new _ _ _ _ h2]
  · intro W cid
    constructor
    · unfold Account.get_or_create_course_deferred_account
      exact getOrCreate_code _ _ _ _
    · unfold Account.get_or_create_course_deferred_account
      have h1 := getOrCreate_found
        (getOrCreateAccountByCode W "21" AccountType.LIABILITY none).2
        (courseDeferredCode cid) AccountType.LIABILITY
        (some (getOrCreateAccountByCode W "21" AccountType.LIABILITY none).1.id)
      have h2 := getOrCreate_mono _ (courseDeferredCode cid) (courseRevenueCode cid)
        AccountType.REVENUE
        (some (getOrCreateAccountByCode W "21" AccountType.LIABILITY none).1.id)
        _ h1
      rw [h2]
      rfl
  · intro W tid
    unfold get_or_create_teacher_salary_account
    exact getOrCreate_code _ _ _ _
  · intro W tid
    unfold get_or_create_teacher_dues_account
    exact getOrCreate_code _ _ _ _
  · intro W tid
    unfold get_or_create_teacher_advance_account
    exact getOrCreate_code _ _ _ _
  · intro W eid
    unfold get_or_create_employee_salary_account
    exact getOrCreate_code _ _ _ _
  · intro W eid
    unfold get_or_create_employee_advance_account
    exact getOrCreate_code _ _ _ _
  · intro k₁ k₂ hne i j
    cases k₁ <;> cases k₂ <;>
      first
        | exact absurd rfl hne
        | (simp only [AccountKind.codeOf, studentARCode, courseDeferredCode,
            courseRevenueCode, teacherSalaryCode, teacherDuesCode,
            teacherAdvanceCode, employeeSalaryCode, employeeAdvanceCode]
           exact string_append_ne _ _ _ _ (by decide))

/-- Counterexample to C8 as stated: the per-course deferred revenue code
for course 7 is 21001-007, not the claimed 21-007; running the factory
on an empty state creates 21001-007 and no 21-007 account. -/
theorem C8_counterexample :
    courseDeferredCode 7 = "21001-007" ∧ courseDeferredCode 7 ≠ "21-007" ∧
    findAccountByCode (Account.get_or_create_course_deferred_account emptyWorld 7).2
      "21-007" = none ∧
    (findAccountByCode (Account.get_or_create_course_deferred_account emptyWorld 7).2
      "21001-007").isSome = true := by
  with_unfolding_all decide

/-- Witness for C8 at concrete ids: student and teacher-dues codes for
entity 7 differ, and the student factory yields code 1251-007. -/
theorem C8_account_code_ranges_witness :
    AccountKind.codeOf AccountKind.studentAR 7 ≠
      AccountKind.codeOf AccountKind.teacherDues 7 ∧
    (Account.get_or_create_student_ar_account emptyWorld 7).1.code =
      studentARCode 7 := by
  constructor
  · exact C8_account_code_ranges.2.2.2.2.2.2.2.2 AccountKind.studentAR
      AccountKind.teacherDues (by decide) 7 7
  · exact C8_account_code_ranges.1 emptyWorld 7

/- ------------------------------------------------------------------ -/
/- C4: rollup balance, cycle guard and termination.                   -/
/- ------------------------------------------------------------------ -/

theorem length_filter_notMem_le (l v : List Nat) (aid : Nat) :
    (l.filter fun i => decide (¬ i ∈ aid :: v)).length ≤
      (l.filter fun i => decide (¬ i ∈ v)).length := by
  induction l with
  | nil => simp
  | cons x xs ih =>
    by_cases hm2 : x ∈ v
    · have hm1 : x ∈ aid :: v := List.mem_cons_of_mem _ hm2
      have e1 : decide (¬ x ∈ aid :: v) = false := decide_eq_false (fun h => h hm1)
      have e2 : decide (¬ x ∈ v) = false := decide_eq_false (fun h => h hm2)
      simp only [List.filter_cons, e1, e2]
      simp only [Bool.false_eq_true, if_false]
      exact ih
    · by_cases hm1 : x ∈ aid :: v
      · have e1 : decide (¬ x ∈ aid :: v) = false := decide_eq_false (fun h => h hm1)
        have e2 : decide (¬ x ∈ v) = true := decide_eq_true hm2
        simp only [List.filter_cons, e1, e2]
        simp only [Bool.false_eq_true, if_false, if_true, List.length_cons]
        exact Nat.le_succ_of_le ih
      · have e1 : decide (¬ x ∈ aid :: v) = true := decide_eq_true hm1
        have e2 : decide (¬ x ∈ v) = true := decide_eq_true hm2
        simp only [List.filter_cons, e1, e2]
        simp only [if_true, List.length_cons]
        exact Nat.succ_le_succ ih

theorem length_filter_notMem_lt (l v : List Nat) (aid : Nat)
    (h1 : aid ∈ l) (h2 : aid ∉ v) :
    (l.filter fun i => decide (¬ i ∈ aid :: v)).length <
      (l.filter fun i => decide (¬ i ∈ v)).length := by
  induction l with
  | nil => cases h1
  | cons x xs ih =>
    by_cases hx : x = aid
    · subst hx
      have hm1 : x ∈ x :: v := List.mem_cons_self x v
      have e1 : decide (¬ x ∈ x :: v) = false := decide_eq_false (fun h => h hm1)
      have e2 : decide (¬ x ∈ v) = true := decide_eq_true h2
      simp only [List.filter_cons, e1, e2]
      simp only [Bool.false_eq_true, if_false, if_true, List.length_cons]
      exact Nat.lt_succ_of_le (length_filter_notMem_le xs v x)
    · have h1' : aid ∈ xs := by
        cases h1 with
        | head => exact absurd rfl hx
        | tail _ h => exact h
      by_cases hm2 : x ∈ v
      · have hm1 : x ∈ aid :: v := List.mem_cons_of_mem _ hm2
        have e1 : decide (¬ x ∈ aid :: v) = false := decide_eq_false (fun h => h hm1)
        have e2 : decide (¬ x ∈ v) = false := decide_eq_false (fun h => h hm2)
        simp only [List.filter_cons, e1, e2]
        simp only [Bool.false_eq_true, if_false]
        exact ih h1'
      · have hm1 : x ∉ aid :: v := by
          intro hc
          cases hc with
          | head => exact hx rfl
          | tail _ h => exact hm2 h
        have e1 : decide (¬ x ∈ aid :: v) = true := decide_eq_true hm1
        have e2 : decide (¬ x ∈ v) = true := decide_eq_true hm2
        simp only [List.filter_cons, e1, e2]
        simp only [if_true, List.length_cons]
        exact Nat.succ_lt_succ (ih h1')

theorem child_mem_elim (W : World) (aid c : Nat) (hc : c ∈ childAccountIds W aid) :
    ∃ b ∈ W.accounts, b.parent = some aid ∧ b.id = c := by
  unfold childAccountIds at hc
  obtain ⟨b, hb, rfl⟩ := List.mem_map.mp hc
  rw [List.mem_filter] at hb
  exact ⟨b, hb.1, of_decide_eq_true hb.2, rfl⟩

theorem rollup_congr (W : World) (rank : Nat → Nat)
    (hr : ∀ a ∈ W.accounts, ∀ p, a.parent = some p → rank p < rank a.id) :
    ∀ n fuel₁ fuel₂ v₁ v₂ aid,
      aid ∈ accountIds W →
      ((accountIds W).filter fun i => decide (¬ i ∈ v₁)).length ≤ n →
      ((accountIds W).filter fun i => decide (¬ i ∈ v₁)).length < fuel₁ →
      ((accountIds W).filter fun i => decide (¬ i ∈ v₂)).length < fuel₂ →
      (∀ i ∈ v₁, rank i < rank aid) →
      (∀ i ∈ v₂, rank i < rank aid) →
      Account.calculate_rollup_balance W fuel₁ v₁ aid =
        Account.calculate_rollup_balance W fuel₂ v₂ aid := by
  intro n
  induction n with
  | zero =>
    intro fuel₁ fuel₂ v₁ v₂ aid hmem hn h1 h2 hv₁ hv₂
    exfalso
    have haid : aid ∉ v₁ := fun hx => lt_irrefl _ (hv₁ aid hx)
    have hin : aid ∈ (accountIds W).filter fun i => decide (¬ i ∈ v₁) := by
      rw [List.mem_filter]
      exact ⟨hmem, by simpa using haid⟩
    have hpos := List.length_pos_of_mem hin
    omega
  | succ n ih =>
    intro fuel₁ fuel₂ v₁ v₂ aid hmem hn h1 h2 hv₁ hv₂
    have haid₁ : aid ∉ v₁ := fun hx => lt_irrefl _ (hv₁ aid hx)
    have haid₂ : aid ∉ v₂ := fun hx => lt_irrefl _ (hv₂ aid hx)
    obtain ⟨f₁, rfl⟩ : ∃ f, fuel₁ = f + 1 := ⟨fuel₁ - 1, by omega⟩
    obtain ⟨f₂, rfl⟩ : ∃ f, fuel₂ = f + 1 := ⟨fuel₂ - 1, by omega⟩
    simp only [Account.calculate_rollup_balance]
    rw [if_neg haid₁, if_neg haid₂]
    congr 1
    apply congrArg List.sum
    apply List.map_congr_left
    intro c hc
    obtain ⟨b, hbmem, hbpar, rfl⟩ := child_mem_elim W aid c hc
    have hrank : rank aid < rank b.id := hr b hbmem aid hbpar
    have hmemb : b.id ∈ accountIds W := List.mem_map.mpr ⟨b, hbmem, rfl⟩
    have hlt₁ := length_filter_notMem_lt (accountIds W) v₁ aid hmem haid₁
    have hlt₂ := length_filter_notMem_lt (accountIds W) v₂ aid hmem haid₂
    apply ih f₁ f₂ (aid :: v₁) (aid :: v₂) b.id hmemb (by omega) (by omega) (by omega)
    · intro i hi
      cases hi with
      | head => exact hrank
      | tail _ h => exact lt_trans (hv₁ i h) hrank
    · intro i hi
      cases hi with
      | head => exact hrank
      | tail _ h => exact lt_trans (hv₂ i h) hrank

/-- C4: the rollup recursion returns 0 for a node already on the visited
path, terminates with a finite value on a concrete cyclic account graph,
and on a parent-acyclic state (witnessed by a rank function decreasing
from child to parent) satisfies rollup(a) = net(a) plus the sum of
rollup over the children of a. -/
theorem C4_rollup_balance (W : World) (rank : Nat → Nat) (fuel : Nat)
    (v : List Nat) (aid : Nat) :
    (aid ∈ v → Account.calculate_rollup_balance W (fuel + 1) v aid = 0) ∧
    Account.rollup_balance cyclicWorld 1 = 42 ∧
    ((∀ a ∈ W.accounts, ∀ p, a.parent = some p → rank p < rank a.id) →
      ∀ a ∈ W.accounts,
        Account.rollup_balance W a.id = Account.get_net_balance W a.id +
          ((childAccountIds W a.id).map
            (fun c => Account.rollup_balance W c)).sum) := by
  refine ⟨?_, ?_, ?_⟩
  · intro h
    simp only [Account.calculate_rollup_balance]
    rw [if_pos h]
  · with_unfolding_all decide
  · intro hr a ha
    have hmem : a.id ∈ accountIds W := List.mem_map.mpr ⟨a, ha, rfl⟩
    unfold Account.rollup_balance
    simp only [Account.calculate_rollup_balance]
    rw [if_neg (List.not_mem_nil a.id)]
    congr 1
    apply congrArg List.sum
    apply List.map_congr_left
    intro c hc
    obtain ⟨b, hbmem, hbpar, rfl⟩ := child_mem_elim W a.id c hc
    have hrank : rank a.id < rank b.id := hr b hbmem a.id hbpar
    have hmemb : b.id ∈ accountIds W := List.mem_map.mpr ⟨b, hbmem, rfl⟩
    have hnil : ((accountIds W).filter fun i => decide (¬ i ∈ ([] : List Nat))).length
        = W.accounts.length := by
      simp [accountIds]
    have hlt := length_filter_notMem_lt (accountIds W) [] a.id hmem
      (List.not_mem_nil a.id)
    apply rollup_congr W rank hr W.accounts.length W.accounts.length
      (W.accounts.length + 1) [a.id] [] b.id hmemb (by omega) (by omega) (by omega)
    · intro i hi
      rw [List.mem_singleton] at hi
      subst hi
      exact hrank
    · intro i hi
      cases hi

/-- Witness for C4: the guard returns 0 when node 1 is revisited in the
cyclic state, and the rollup equation holds at the root of the concrete
three-level chain. -/
theorem C4_rollup_balance_witness :
    Account.calculate_rollup_balance cyclicWorld 3 [1] 1 = 0 ∧
    Account.rollup_balance chainWorld 1 = Account.get_net_balance chainWorld 1 +
      ((childAccountIds chainWorld 1).map
        (fun c => Account.rollup_balance chainWorld c)).sum := by
  constructor
  · exact (C4_rollup_balance cyclicWorld id 2 [1] 1).1 (by decide)
  · have hr : ∀ a ∈ chainWorld.accounts, ∀ p, a.parent = some p → id p < id a.id := by
      intro a ha p hp
      simp only [chainWorld, List.mem_cons, List.not_mem_nil, or_false] at ha
      rcases ha with rfl | rfl | rfl <;> simp only [Option.some.injEq] at hp <;>
        first
          | exact Option.noConfusion hp
          | (subst hp; decide)
    exact (C4_rollup_balance chainWorld id 0 [] 0).2.2 hr
      { id := 1, code := "R", accountType := AccountType.ASSET } (by decide)

/- ------------------------------------------------------------------ -/
/- Invariance lemmas for balance recalculation.                       -/
/- ------------------------------------------------------------------ -/

theorem findAccount_setBal (W : World) (j : Nat) (q : Rat) (i : Nat) :
    findAccount (setAccountBalance W j q) i =
      (findAccount W i).map
        (fun a => if a.id = j then { a with balance := q } else a) := by
  unfold findAccount setAccountBalance
  exact find?_map_pred _ _ _ (fun a => by by_cases h : a.id = j <;> simp [h])

theorem typeOf_setBal (W : World) (j : Nat) (q : Rat) (i : Nat) :
    typeOf (setAccountBalance W j q) i = typeOf W i := by
  unfold typeOf
  rw [findAccount_setBal]
  cases findAccount W i with
  | none => rfl
  | some a => by_cases h : a.id = j <;> simp [h]

theorem get_net_setBal (W : World) (j : Nat) (q : Rat) (i : Nat) :
    Account.get_net_balance (setAccountBalance W j q) i =
      Account.get_net_balance W i := by
  unfold Account.get_net_balance
  rw [findAccount_setBal]
  cases h : findAccount W i with
  | none => rfl
  | some a => by_cases hj : a.id = j <;> simp [hj] <;> rfl

theorem getBalance_setBal_same (W : World) (i : Nat) (q : Rat)
    (h : i ∈ accountIds W) :
    getBalance (setAccountBalance W i q) i = q := by
  unfold getBalance
  rw [findAccount_setBal]
  have hex : (W.accounts.find? fun a => decide (a.id = i)).isSome = true := by
    rw [List.find?_isSome]
    obtain ⟨a, ha, rfl⟩ := List.mem_map.mp h
    exact ⟨a, ha, by simp⟩
  obtain ⟨a, ha⟩ := Option.isSome_iff_exists.mp hex
  have ha' : findAccount W i = some a := ha
  have hid : a.id = i := by simpa using List.find?_some ha
  rw [ha']
  simp [hid]

theorem getBalance_setBal_other (W : World) (j : Nat) (q : Rat) (i : Nat)
    (h : i ≠ j) :
    getBalance (setAccountBalance W j q) i = getBalance W i := by
  unfold getBalance
  rw [findAccount_setBal]
  cases ha : findAccount W i with
  | none => rfl
  | some a =>
    have hid : a.id = i := by simpa using List.find?_some ha
    simp [hid, h]

theorem accountIds_setBal (W : World) (j : Nat) (q : Rat) :
    accountIds (setAccountBalance W j q) = accountIds W := by
  unfold accountIds setAccountBalance
  rw [List.map_map]
  apply List.map_congr_left
  intro a _
  by_cases h : a.id = j <;> simp [h]

theorem childIds_setBal (W : World) (j : Nat) (q : Rat) (x : Nat) :
    childAccountIds (setAccountBalance W j q) x = childAccountIds W x := by
  unfold childAccountIds setAccountBalance
  rw [List.filter_map]
  have hp : ((fun a => decide (a.parent = some x)) ∘
      (fun a => if a.id = j then { a with balance := q } else a)) =
      fun a : AccountData => decide (a.parent = some x) := by
    funext a
    by_cases h : a.id = j <;> simp [h]
  rw [hp, List.map_map]
  apply List.map_congr_left
  intro a _
  by_cases h : a.id = j <;> simp [h]

theorem length_setBal (W : World) (j : Nat) (q : Rat) :
    (setAccountBalance W j q).accounts.length = W.accounts.length :=
  List.length_map _ _

theorem recalcFold_txns (ids : List Nat) (V : World) :
    (ids.foldl (fun acc j => setAccountBalance acc j
      (Account.get_net_balance acc j)) V).txns = V.txns := by
  induction ids generalizing V with
  | nil => rfl
  | cons x xs ih =>
    rw [List.foldl_cons, ih]
    rfl

theorem recalcFold_entries (ids : List Nat) (V : World) :
    (ids.foldl (fun acc j => setAccountBalance acc j
      (Account.get_net_balance acc j)) V).entries = V.entries := by
  induction ids generalizing V with
  | nil => rfl
  | cons x xs ih =>
    rw [List.foldl_cons, ih]
    rfl

theorem recalcFold_typeOf (ids : List Nat) (V : World) (i : Nat) :
    typeOf (ids.foldl (fun acc j => setAccountBalance acc j
      (Account.get_net_balance acc j)) V) i = typeOf V i := by
  induction ids generalizing V with
  | nil => rfl
  | cons x xs ih => rw [List.foldl_cons, ih, typeOf_setBal]

theorem recalcFold_accountIds (ids : List Nat) (V : World) :
    accountIds (ids.foldl (fun acc j => setAccountBalance acc j
      (Account.get_net_balance acc j)) V) = accountIds V := by
  induction ids generalizing V with
  | nil => rfl
  | cons x xs ih => rw [List.foldl_cons, ih, accountIds_setBal]

theorem recalcFold_childIds (ids : List Nat) (V : World) (x : Nat) :
    childAccountIds (ids.foldl (fun acc j => setAccountBalance acc j
      (Account.get_net_balance acc j)) V) x = childAccountIds V x := by
  induction ids generalizing V with
  | nil => rfl
  | cons y ys ih => rw [List.foldl_cons, ih, childIds_setBal]

theorem recalcFold_length (ids : List Nat) (V : World) :
    (ids.foldl (fun acc j => setAccountBalance acc j
      (Account.get_net_balance acc j)) V).accounts.length = V.accounts.length := by
  induction ids generalizing V with
  | nil => rfl
  | cons x xs ih => rw [List.foldl_cons, ih, length_setBal]

theorem recalcFold_get_net (ids : List Nat) (V : World) (i : Nat) :
    Account.get_net_balance (ids.foldl (fun acc j => setAccountBalance acc j
      (Account.get_net_balance acc j)) V) i = Account.get_net_balance V i := by
  induction ids generalizing V with
  | nil => rfl
  | cons x xs ih => rw [List.foldl_cons, ih, get_net_setBal]

theorem recalcFold_getBalance_notMem (ids : List Nat) (V : World) (i : Nat)
    (h : i ∉ ids) :
    getBalance (ids.foldl (fun acc j => setAccountBalance acc j
      (Account.get_net_balance acc j)) V) i = getBalance V i := by
  induction ids generalizing V with
  | nil => rfl
  | cons x xs ih =>
    have hx : i ≠ x := fun hc => h (hc ▸ List.mem_cons_self x xs)
    have hxs : i ∉ xs := fun hc => h (List.mem_cons_of_mem x hc)
    rw [List.foldl_cons, ih _ hxs, getBalance_setBal_other _ _ _ _ hx]

theorem recalcFold_getBalance_mem (ids : List Nat) (V : World) (i : Nat)
    (h : i ∈ ids) (h2 : i ∈ accountIds V) :
    getBalance (ids.foldl (fun acc j => setAccountBalance acc j
      (Account.get_net_balance acc j)) V) i = Account.get_net_balance V i := by
  induction ids generalizing V with
  | nil => cases h
  | cons x xs ih =>
    rw [List.foldl_cons]
    by_cases hx : i ∈ xs
    · rw [ih _ hx (by rw [accountIds_setBal]; exact h2), get_net_setBal]
    · have hix : i = x := by
        cases h with
        | head => rfl
        | tail _ ht => exact absurd ht hx
      subst hix
      rw [recalcFold_getBalance_notMem xs _ i hx]
      exact getBalance_setBal_same V i _ h2

theorem collectSubtree_congr (V V' : World)
    (h : ∀ x, childAccountIds V' x = childAccountIds V x) :
    ∀ fuel aid, collectSubtreeIds V' fuel aid = collectSubtreeIds V fuel aid := by
  intro fuel
  induction fuel with
  | zero => intro aid; rfl
  | succ fuel ih =>
    intro aid
    simp only [collectSubtreeIds]
    rw [h aid]
    congr 1
    exact flatMap_congr _ _ _ (fun c _ => ih c)

theorem recalcTree_txns (V : World) (aid : Nat) :
    (Account.recalculate_tree_balances V aid).txns = V.txns :=
  recalcFold_txns _ _

theorem recalcTree_entries (V : World) (aid : Nat) :
    (Account.recalculate_tree_balances V aid).entries = V.entries :=
  recalcFold_entries _ _

theorem recalcTree_typeOf (V : World) (aid i : Nat) :
    typeOf (Account.recalculate_tree_balances V aid) i = typeOf V i :=
  recalcFold_typeOf _ _ _

theorem recalcAll_eq (ts : List Txn) (V : World) :
    ts.foldl (fun acc t => Account.recalculate_tree_balances acc t.accountId) V =
      (ts.flatMap (fun t =>
        collectSubtreeIds V (V.accounts.length + 1) t.accountId)).foldl
        (fun acc j => setAccountBalance acc j (Account.get_net_balance acc j)) V := by
  induction ts generalizing V with
  | nil => rfl
  | cons t ts ih =>
    rw [List.foldl_cons, List.flatMap_cons, List.foldl_append]
    rw [ih (Account.recalculate_tree_balances V t.accountId)]
    have hV1 : (collectSubtreeIds V (V.accounts.length + 1) t.accountId).foldl
        (fun acc j => setAccountBalance acc j (Account.get_net_balance acc j)) V =
        Account.recalculate_tree_balances V t.accountId := rfl
    rw [hV1]
    congr 1
    apply flatMap_congr
    intro t' _
    have hch : ∀ x, childAccountIds (Account.recalculate_tree_balances V t.accountId) x =
        childAccountIds V x := fun x => recalcFold_childIds _ _ x
    have hlen : (Account.recalculate_tree_balances V t.accountId).accounts.length =
        V.accounts.length := recalcFold_length _ _
    rw [hlen]
    exact collectSubtree_congr V _ hch _ _

theorem recalcTreeFold_txns (ts : List Txn) (V : World) :
    (ts.foldl (fun acc t => Account.recalculate_tree_balances acc t.accountId)
      V).txns = V.txns := by
  rw [recalcAll_eq]
  exact recalcFold_txns _ _

theorem recalcTreeFold_entries (ts : List Txn) (V : World) :
    (ts.foldl (fun acc t => Account.recalculate_tree_balances acc t.accountId)
      V).entries = V.entries := by
  rw [recalcAll_eq]
  exact recalcFold_entries _ _

theorem recalcTreeFold_typeOf (ts : List Txn) (V : World) (i : Nat) :
    typeOf (ts.foldl (fun acc t => Account.recalculate_tree_balances acc t.accountId)
      V) i = typeOf V i := by
  rw [recalcAll_eq]
  exact recalcFold_typeOf _ _ _

/- ------------------------------------------------------------------ -/
/- C1: post_entry failure and success behaviour.                      -/
/- ------------------------------------------------------------------ -/

theorem post_entry_already_posted (W : World) (eid uid now : Nat) (e : EntryData)
    (he : findEntry W eid = some e) (hp : e.isPosted = true) :
    JournalEntry.post_entry W eid uid now = (W, some "Entry is already posted") := by
  simp only [JournalEntry.post_entry, he, hp]
  simp

theorem post_entry_unbalanced (W : World) (eid uid now : Nat) (e : EntryData)
    (he : findEntry W eid = some e) (hp : e.isPosted = false)
    (hb : JournalEntry.is_balanced W eid = false) :
    JournalEntry.post_entry W eid uid now = (W, some "Entry is not balanced") := by
  simp only [JournalEntry.post_entry, he, hp, hb]
  simp

theorem post_entry_success_eq (W : World) (eid uid now : Nat) (e : EntryData)
    (he : findEntry W eid = some e) (hp : e.isPosted = false)
    (hb : JournalEntry.is_balanced W eid = true) :
    JournalEntry.post_entry W eid uid now =
      ((entryTxns W eid).foldl
        (fun acc t => Account.recalculate_tree_balances acc t.accountId)
        (setEntryPosted W eid uid now), none) := by
  simp only [JournalEntry.post_entry, he, hp, hb]
  simp
  rfl

theorem touched_mem_recalcIds (W : World) (eid : Nat) (t : Txn)
    (ht : t ∈ entryTxns W eid) : t.accountId ∈ recalcIds W eid := by
  unfold recalcIds
  rw [List.mem_flatMap]
  refine ⟨t, ht, ?_⟩
  simp only [collectSubtreeIds]
  exact List.mem_append_right _ (List.mem_singleton.mpr rfl)

theorem recalcIds_from_posted (W : World) (eid uid now : Nat) :
    (entryTxns W eid).flatMap (fun t =>
      collectSubtreeIds (setEntryPosted W eid uid now)
        ((setEntryPosted W eid uid now).accounts.length + 1) t.accountId) =
      recalcIds W eid := by
  apply flatMap_congr
  intro t _
  exact collectSubtree_congr W (setEntryPosted W eid uid now) (fun x => rfl) _ _

/-- C1: posting fails on an already posted entry and on an entry whose
debit and credit totals differ by at least 0.01, leaving the state (in
particular every cached balance) untouched; otherwise it records the
posted flag, timestamp and actor on the entry and rewrites the cached
balance of every account in the subtree of every account touched by the
entry transactions to that account net balance, touching no other
cached balance. -/
theorem C1_post_entry (W : World) (eid uid now : Nat) (e : EntryData)
    (he : findEntry W eid = some e) :
    (e.isPosted = true →
      JournalEntry.post_entry W eid uid now = (W, some "Entry is already posted")) ∧
    (e.isPosted = false →
      (1 / 100 : Rat) ≤ |JournalEntry.get_total_debits W eid -
          JournalEntry.get_total_credits W eid| →
      JournalEntry.post_entry W eid uid now = (W, some "Entry is not balanced")) ∧
    (e.isPosted = false →
      |JournalEntry.get_total_debits W eid -
          JournalEntry.get_total_credits W eid| < (1 / 100 : Rat) →
      (JournalEntry.post_entry W eid uid now).2 = none ∧
      findEntry (JournalEntry.post_entry W eid uid now).1 eid =
        some { e with isPosted := true, postedAt := some now, postedBy := some uid } ∧
      (∀ t ∈ entryTxns W eid, t.accountId ∈ recalcIds W eid) ∧
      (∀ i ∈ recalcIds W eid, i ∈ accountIds W →
        getBalance (JournalEntry.post_entry W eid uid now).1 i =
          Account.get_net_balance W i) ∧
      (∀ i, i ∉ recalcIds W eid →
        getBalance (JournalEntry.post_entry W eid uid now).1 i = getBalance W i)) := by
  refine ⟨?_, ?_, ?_⟩
  · intro hp
    exact post_entry_already_posted W eid uid now e he hp
  · intro hp hge
    have hb : JournalEntry.is_balanced W eid = false :=
      decide_eq_false (not_lt.mpr hge)
    exact post_entry_unbalanced W eid uid now e he hp hb
  · intro hp hlt
    have hb : JournalEntry.is_balanced W eid = true := decide_eq_true hlt
    have heq := post_entry_success_eq W eid uid now e he hp hb
    rw [heq]
    refine ⟨rfl, ?_, ?_, ?_, ?_⟩
    · have hent := recalcTreeFold_entries (entryTxns W eid)
        (setEntryPosted W eid uid now)
      unfold findEntry
      rw [hent]
      show (W.entries.map (fun e' => if e'.id = eid then
        { e' with isPosted := true, postedAt := some now, postedBy := some uid }
        else e')).find? (fun x => decide (x.id = eid)) = _
      rw [find?_map_pred _ _ _ (fun a => by by_cases h : a.id = eid <;> simp [h])]
      have hfe : W.entries.find? (fun x => decide (x.id = eid)) = some e := he
      rw [hfe]
      have hid : e.id = eid := by simpa using List.find?_some he
      simp [hid]
    · exact fun t ht => touched_mem_recalcIds W eid t ht
    · intro i hi hacc
      show getBalance ((entryTxns W eid).foldl
        (fun acc t => Account.recalculate_tree_balances acc t.accountId)
        (setEntryPosted W eid uid now)) i = _
      rw [recalcAll_eq, recalcIds_from_posted]
      rw [recalcFold_getBalance_mem (recalcIds W eid)
        (setEntryPosted W eid uid now) i hi hacc]
      rfl
    · intro i hi
      show getBalance ((entryTxns W eid).foldl
        (fun acc t => Account.recalculate_tree_balances acc t.accountId)
        (setEntryPosted W eid uid now)) i = _
      rw [recalcAll_eq, recalcIds_from_posted]
      rw [recalcFold_getBalance_notMem (recalcIds W eid)
        (setEntryPosted W eid uid now) i hi]
      rfl

/-- Witness for C1 at the concrete balanced draft entry: posting
succeeds, flags the entry, and sets the cash account cached balance to
its net balance 100. -/
theorem C1_post_entry_witness :
    (JournalEntry.post_entry postExampleWorld 1 5 7).2 = none ∧
    findEntry (JournalEntry.post_entry postExampleWorld 1 5 7).1 1 =
      some { id := 1, reference := "JE-000001", date := 0, description := "",
             entryType := EntryType.MANUAL, totalAmount := 100, isPosted := true,
             postedAt := some 7, postedBy := some 5, createdBy := 5 } ∧
    getBalance (JournalEntry.post_entry postExampleWorld 1 5 7).1 1 = 100 := by
  have h := (C1_post_entry postExampleWorld 1 5 7
    { id := 1, reference := "JE-000001", date := 0, description := "",
      entryType := EntryType.MANUAL, totalAmount := 100, createdBy := 5 }
    (by decide)).2.2 rfl (by with_unfolding_all decide)
  refine ⟨h.1, h.2.1, ?_⟩
  have hb := h.2.2.2.1 1 (by with_unfolding_all decide) (by decide)
  rw [hb]
  with_unfolding_all decide

/- ------------------------------------------------------------------ -/
/- C6: no minimum-transaction-count check exists.                     -/
/- ------------------------------------------------------------------ -/

/-- Counterexample to C6 as stated: a journal entry with zero
transactions is created in the state and post_entry accepts it (the
empty entry is trivially balanced), so entries with fewer than two legs
can both exist and be posted. -/
theorem C6_counterexample :
    entryTxns zeroLegWorld 1 = [] ∧
    (JournalEntry.post_entry zeroLegWorld 1 5 7).2 = none ∧
    findEntry (JournalEntry.post_entry zeroLegWorld 1 5 7).1 1 =
      some { id := 1, reference := "JE-000001", date := 0, description := "",
             entryType := EntryType.MANUAL, totalAmount := 0, isPosted := true,
             postedAt := some 7, postedBy := some 5, createdBy := 5 } := by
  with_unfolding_all decide

/-- C6 amended: neither entry creation nor posting checks a minimum
transaction count.  An unposted entry with zero transactions posts
successfully, because both totals are zero and the entry counts as
balanced; an unposted entry with exactly one leg of amount at least
0.01 is rejected as unbalanced rather than by a leg-count check. -/
theorem C6_no_minimum_leg_check (W : World) (eid uid now : Nat) (e : EntryData)
    (he : findEntry W eid = some e) (hp : e.isPosted = false) :
    (entryTxns W eid = [] → (JournalEntry.post_entry W eid uid now).2 = none) ∧
    (∀ t : Txn, entryTxns W eid = [t] → (1 / 100 : Rat) ≤ |t.amount| →
      JournalEntry.post_entry W eid uid now = (W, some "Entry is not balanced")) := by
  constructor
  · intro h
    have hb : JournalEntry.is_balanced W eid = true := by
      unfold JournalEntry.is_balanced JournalEntry.get_total_debits
        JournalEntry.get_total_credits
      rw [h]
      with_unfolding_all decide
    rw [post_entry_success_eq W eid uid now e he hp hb]
  · intro t h hge
    have habs : |JournalEntry.get_total_debits W eid -
        JournalEntry.get_total_credits W eid| = |t.amount| := by
      unfold JournalEntry.get_total_debits JournalEntry.get_total_credits
      rw [h]
      unfold debitSum creditSum
      cases ht : t.isDebit <;> simp [List.filter_cons, ht]
    have hb : JournalEntry.is_balanced W eid = false := by
      apply decide_eq_false
      rw [habs]
      exact not_lt.mpr hge
    exact post_entry_unbalanced W eid uid now e he hp hb

/-- Witness for C6: the zero-leg entry posts; the one-leg entry of
amount 100 is rejected as unbalanced. -/
theorem C6_no_minimum_leg_check_witness :
    (JournalEntry.post_entry zeroLegWorld 1 5 7).2 = none ∧
    JournalEntry.post_entry oneLegWorld 1 5 7 =
      (oneLegWorld, some "Entry is not balanced") := by
  constructor
  · exact (C6_no_minimum_leg_check zeroLegWorld 1 5 7
      { id := 1, reference := "JE-000001", date := 0, description := "",
        entryType := EntryType.MANUAL, totalAmount := 0, createdBy := 5 }
      (by decide) rfl).1 (by decide)
  · exact (C6_no_minimum_leg_check oneLegWorld 1 5 7
      { id := 1, reference := "JE-000001", date := 0, description := "",
        entryType := EntryType.MANUAL, totalAmount := 100, createdBy := 5 }
      (by decide) rfl).2
      { entryId := 1, accountId := 1, amount := 100, isDebit := true }
      (by decide) (by with_unfolding_all decide)

/- ------------------------------------------------------------------ -/
/- C7: transaction amount validation.                                 -/
/- ------------------------------------------------------------------ -/

/-- Counterexample to C7 as stated: the expense posting workflow stores
and posts transactions with amount -5 (objects.create does not run the
declared MinValueValidator), so a non-positive amount is not rejected at
construction and reaches the ledger. -/
theorem C7_counterexample :
    ({ entryId := 1, accountId := 1, amount := -5, isDebit := true,
       description := "rent" } : Txn) ∈
      (ExpenseEntry.create_journal_entry expenseWorld negativeExpense 5 0).1.txns ∧
    okSome (ExpenseEntry.create_journal_entry expenseWorld negativeExpense 5 0).2.2 =
      some 1 ∧
    transaction_amount_validator (-5) = false := by
  with_unfolding_all decide

/-- C7 amended: the Transaction amount field declares
MinValueValidator(0.01), which when model validation runs rejects every
non-positive amount (and any amount it accepts is strictly positive);
but the workflows create transactions through objects.create, which
skips field validation, so a non-positive amount such as an expense of
-5 is stored and posted. -/
theorem C7_amount_validation (a : Rat) :
    (a ≤ 0 → transaction_amount_validator a = false) ∧
    (transaction_amount_validator a = true → 0 < a) ∧
    (({ entryId := 1, accountId := 1, amount := -5, isDebit := true,
        description := "rent" } : Txn) ∈
      (ExpenseEntry.create_journal_entry expenseWorld negativeExpense 5 0).1.txns) := by
  refine ⟨?_, ?_, ?_⟩
  · intro h
    apply decide_eq_false
    intro hc
    have : (0 : Rat) < 1 / 100 := by norm_num
    linarith
  · intro h
    have hc := of_decide_eq_true h
    have : (0 : Rat) < 1 / 100 := by norm_num
    linarith
  · with_unfolding_all decide

/-- Witness for C7: the validator rejects -1 and accepts 1, which is
positive. -/
theorem C7_amount_validation_witness :
    transaction_amount_validator (-1) = false ∧ (0 : Rat) < 1 := by
  constructor
  · exact (C7_amount_validation (-1)).1 (by norm_num)
  · exact (C7_amount_validation 1).2.1 (by with_unfolding_all decide)

/- ------------------------------------------------------------------ -/
/- C5: idempotent posting of the domain workflows.                    -/
/- ------------------------------------------------------------------ -/

theorem enroll_ok_inv (W : World) (enr : Enrollment) (uid now : Nat)
    (W' : World) (enr' : Enrollment) (e : Nat)
    (h : Studentenrollment.create_accrual_enrollment_entry W enr uid now =
      (W', enr', Except.ok (some e))) :
    enr'.enrollmentJournalEntry = some e := by
  unfold Studentenrollment.create_accrual_enrollment_entry at h
  cases hl : enr.enrollmentJournalEntry with
  | some e0 =>
    rw [hl] at h
    simp only [Prod.mk.injEq] at h
    obtain ⟨h1, h2, h3⟩ := h
    subst h2
    simp only [Except.ok.injEq, Option.some.injEq] at h3
    rw [hl, h3]
  | none =>
    rw [hl] at h
    by_cases hn : enr.net_amount ≤ 0
    · rw [if_pos hn] at h
      simp only [Prod.mk.injEq] at h
      exact absurd h.2.2 (by simp)
    · rw [if_neg hn] at h
      dsimp only at h
      split at h
      · simp only [Prod.mk.injEq] at h
        exact absurd h.2.2 (by simp)
      · simp only [Prod.mk.injEq] at h
        obtain ⟨h1, h2, h3⟩ := h
        subst h2
        simp only [Except.ok.injEq, Option.some.injEq] at h3
        simp [h3]

theorem enroll_short_circuit (W : World) (enr : Enrollment) (uid now e : Nat)
    (h : enr.enrollmentJournalEntry = some e) :
    Studentenrollment.create_accrual_enrollment_entry W enr uid now =
      (W, enr, Except.ok (some e)) := by
  unfold Studentenrollment.create_accrual_enrollment_entry
  rw [h]

theorem receipt_ok_inv (W : World) (r : Receipt) (uid now : Nat)
    (W' : World) (r' : Receipt) (e : Nat)
    (h : StudentReceipt.create_accrual_journal_entry W r uid now =
      (W', r', Except.ok (some e))) :
    r'.journalEntry = some e := by
  unfold StudentReceipt.create_accrual_journal_entry at h
  cases hl : r.journalEntry with
  | some e0 =>
    rw [hl] at h
    simp only [Prod.mk.injEq] at h
    obtain ⟨h1, h2, h3⟩ := h
    subst h2
    simp only [Except.ok.injEq, Option.some.injEq] at h3
    rw [hl, h3]
  | none =>
    rw [hl] at h
    by_cases hn : r.paidAmount ≤ 0
    · rw [if_pos hn] at h
      simp only [Prod.mk.injEq] at h
      exact absurd h.2.2 (by simp)
    · rw [if_neg hn] at h
      dsimp only at h
      cases hs : r.studentId with
      | none =>
        rw [hs] at h
        simp only [Prod.mk.injEq] at h
        exact absurd h.2.2 (by simp)
      | some sid =>
        rw [hs] at h
        dsimp only at h
        split at h
        · simp only [Prod.mk.injEq] at h
          exact absurd h.2.2 (by simp)
        · simp only [Prod.mk.injEq] at h
          obtain ⟨h1, h2, h3⟩ := h
          subst h2
          simp only [Except.ok.injEq, Option.some.injEq] at h3
          simp [h3]

theorem receipt_short_circuit (W : World) (r : Receipt) (uid now e : Nat)
    (h : r.journalEntry = some e) :
    StudentReceipt.create_accrual_journal_entry W r uid now =
      (W, r, Except.ok (some e)) := by
  unfold StudentReceipt.create_accrual_journal_entry
  rw [h]

theorem expense_ok_inv (W : World) (x : Expense) (uid now : Nat)
    (W' : World) (x' : Expense) (e : Nat)
    (h : ExpenseEntry.create_journal_entry W x uid now =
      (W', x', Except.ok (some e))) :
    x'.journalEntry = some e := by
  unfold ExpenseEntry.create_journal_entry at h
  cases hl : x.journalEntry with
  | some e0 =>
    rw [hl] at h
    simp only [Prod.mk.injEq] at h
    obtain ⟨h1, h2, h3⟩ := h
    subst h2
    simp only [Except.ok.injEq, Option.some.injEq] at h3
    rw [hl, h3]
  | none =>
    rw [hl] at h
    dsimp only at h
    split at h
    · simp only [Prod.mk.injEq] at h
      exact absurd h.2.2 (by simp)
    · simp only [Prod.mk.injEq] at h
      obtain ⟨h1, h2, h3⟩ := h
      subst h2
      simp only [Except.ok.injEq, Option.some.injEq] at h3
      simp [h3]

theorem expense_short_circuit (W : World) (x : Expense) (uid now e : Nat)
    (h : x.journalEntry = some e) :
    ExpenseEntry.create_journal_entry W x uid now = (W, x, Except.ok (some e)) := by
  unfold ExpenseEntry.create_journal_entry
  rw [h]

theorem advance_ok_inv (W : World) (adv : Advance) (uid now : Nat)
    (W' : World) (adv' : Advance) (e : Nat)
    (h : EmployeeAdvance.create_advance_entry W adv uid now =
      (W', adv', Except.ok (some e))) :
    adv'.journalEntry = some e := by
  unfold EmployeeAdvance.create_advance_entry at h
  cases hl : adv.journalEntry with
  | some e0 =>
    rw [hl] at h
    simp only [Prod.mk.injEq] at h
    obtain ⟨h1, h2, h3⟩ := h
    subst h2
    simp only [Except.ok.injEq, Option.some.injEq] at h3
    rw [hl, h3]
  | none =>
    rw [hl] at h
    dsimp only at h
    split at h
    · simp only [Prod.mk.injEq] at h
      exact absurd h.2.2 (by simp)
    · simp only [Prod.mk.injEq] at h
      obtain ⟨h1, h2, h3⟩ := h
      subst h2
      simp only [Except.ok.injEq, Option.some.injEq] at h3
      simp [h3]

theorem advance_short_circuit (W : World) (adv : Advance) (uid now e : Nat)
    (h : adv.journalEntry = some e) :
    EmployeeAdvance.create_advance_entry W adv uid now =
      (W, adv, Except.ok (some e)) := by
  unfold EmployeeAdvance.create_advance_entry
  rw [h]

theorem getOrCreate_entries (W : World) (c : String) (ty : AccountType)
    (p : Option Nat) :
    (getOrCreateAccountByCode W c ty p).2.entries = W.entries := by
  unfold getOrCreateAccountByCode
  cases h : findAccountByCode W c <;> rfl

theorem salary_factory_entries (W : World) (tid : Nat) :
    (get_or_create_teacher_salary_account W tid).2.entries = W.entries := by
  unfold get_or_create_teacher_salary_account
  rw [getOrCreate_entries, getOrCreate_entries]

theorem dues_factory_entries (W : World) (tid : Nat) :
    (get_or_create_teacher_dues_account W tid).2.entries = W.entries := by
  unfold get_or_create_teacher_dues_account
  rw [getOrCreate_entries, getOrCreate_entries]

theorem post_entry_not_found (V : World) (eid uid now : Nat)
    (hf : findEntry V eid = none) :
    JournalEntry.post_entry V eid uid now =
      (V, some "JournalEntry matching query does not exist") := by
  simp only [JournalEntry.post_entry, hf]

theorem post_entry_none_inv (V : World) (eid uid now : Nat)
    (h : (JournalEntry.post_entry V eid uid now).2 = none) :
    (JournalEntry.post_entry V eid uid now).1.entries =
      V.entries.map (fun e' => if e'.id = eid then
        { e' with isPosted := true, postedAt := some now, postedBy := some uid }
        else e') := by
  cases hf : findEntry V eid with
  | none =>
    rw [post_entry_not_found V eid uid now hf] at h
    simp at h
  | some e0 =>
    cases hp : e0.isPosted with
    | true =>
      rw [post_entry_already_posted V eid uid now e0 hf hp] at h
      simp at h
    | false =>
      cases hb : JournalEntry.is_balanced V eid with
      | false =>
        rw [post_entry_unbalanced V eid uid now e0 hf hp hb] at h
        simp at h
      | true =>
        rw [post_entry_success_eq V eid uid now e0 hf hp hb]
        rw [recalcTreeFold_entries]
        rfl

theorem filter_desc_map_posted (l : List EntryData) (eid uid now : Nat)
    (d : String) (ty : EntryType) :
    ((l.map (fun e' => if e'.id = eid then
        { e' with isPosted := true, postedAt := some now, postedBy := some uid }
        else e')).filter
      (fun e' => decide (e'.description = d ∧ e'.entryType = ty))) =
    ((l.filter (fun e' => decide (e'.description = d ∧ e'.entryType = ty))).map
      (fun e' => if e'.id = eid then
        { e' with isPosted := true, postedAt := some now, postedBy := some uid }
        else e')) := by
  rw [List.filter_map]
  have hp : ((fun e' : EntryData => decide (e'.description = d ∧ e'.entryType = ty)) ∘
      (fun e' => if e'.id = eid then
        { e' with isPosted := true, postedAt := some now, postedBy := some uid }
        else e')) =
      fun e' : EntryData => decide (e'.description = d ∧ e'.entryType = ty) := by
    funext a
    by_cases h : a.id = eid <;> simp [h]
  rw [hp]

theorem create_post_filter_head (V : World) (date : Nat) (d : String)
    (ty : EntryType) (tot : Rat) (uid now : Nat) (t1 t2 : Txn)
    (hfil : (V.entries.filter (fun e' =>
      decide (e'.description = d ∧ e'.entryType = ty))).head? = none)
    (hq : (JournalEntry.post_entry
        (addTxn (addTxn (createJournalEntry V date d ty tot uid).2 t1) t2)
        (createJournalEntry V date d ty tot uid).1 uid now).2 = none) :
    ∃ ex : EntryData,
      ((JournalEntry.post_entry
          (addTxn (addTxn (createJournalEntry V date d ty tot uid).2 t1) t2)
          (createJournalEntry V date d ty tot uid).1 uid now).1.entries.filter
        (fun e' => decide (e'.description = d ∧ e'.entryType = ty))).head? = some ex ∧
      ex.id = (createJournalEntry V date d ty tot uid).1 := by
  have hent := post_entry_none_inv _ _ uid now hq
  rw [hent]
  have hW5 : (addTxn (addTxn (createJournalEntry V date d ty tot uid).2 t1) t2).entries =
      V.entries ++
        [{ id := V.nextEntryId,
           reference := journalReference (NumberSequence.nextValue V.seqs "journal_entry").1,
           date := date, description := d, entryType := ty, totalAmount := tot,
           isPosted := false, createdBy := uid }] := rfl
  rw [hW5, filter_desc_map_posted, List.filter_append,
    List.head?_eq_none_iff.mp hfil, List.nil_append]
  simp [List.filter_cons, createJournalEntry]

theorem teacher_found_short_circuit (W : World) (t : Teacher)
    (uid now year month : Nat) (ex : EntryData)
    (hg : ¬ t.gross ≤ 0)
    (hfind : (W.entries.filter (fun e' =>
      decide (e'.description = teacherPeriodDescription t year month ∧
        e'.entryType = EntryType.SALARY))).head? = some ex) :
    Teacher.create_salary_accrual_entry W t uid now year month =
      (W, Except.ok ex.id) := by
  unfold Teacher.create_salary_accrual_entry
  rw [if_neg hg]
  dsimp only
  rw [hfind]

theorem teacher_ok_inv (W : World) (t : Teacher) (uid now year month : Nat)
    (W' : World) (e : Nat)
    (h : Teacher.create_salary_accrual_entry W t uid now year month =
      (W', Except.ok e)) :
    ¬ t.gross ≤ 0 ∧
    ∃ ex : EntryData, (W'.entries.filter (fun e' =>
      decide (e'.description = teacherPeriodDescription t year month ∧
        e'.entryType = EntryType.SALARY))).head? = some ex ∧ ex.id = e := by
  unfold Teacher.create_salary_accrual_entry at h
  by_cases hg : t.gross ≤ 0
  · rw [if_pos hg] at h
    simp only [Prod.mk.injEq] at h
    exact absurd h.2 (by simp)
  · rw [if_neg hg] at h
    refine ⟨hg, ?_⟩
    dsimp only at h
    cases hfind : (W.entries.filter (fun e' =>
        decide (e'.description = teacherPeriodDescription t year month ∧
          e'.entryType = EntryType.SALARY))).head? with
    | some ex =>
      rw [hfind] at h
      simp only [Prod.mk.injEq] at h
      obtain ⟨h1, h2⟩ := h
      subst h1
      simp only [Except.ok.injEq] at h2
      exact ⟨ex, hfind, h2⟩
    | none =>
      rw [hfind] at h
      dsimp only at h
      split at h
      · simp only [Prod.mk.injEq] at h
        exact absurd h.2 (by simp)
      · rename_i hq
        simp only [Prod.mk.injEq] at h
        obtain ⟨h1, h2⟩ := h
        subst h1
        simp only [Except.ok.injEq] at h2
        have hfil2 : ((get_or_create_teacher_dues_account
            (get_or_create_teacher_salary_account W t.id).2 t.id).2.entries.filter
            (fun e' => decide (e'.description = teacherPeriodDescription t year month ∧
              e'.entryType = EntryType.SALARY))).head? = none := by
          rw [dues_factory_entries, salary_factory_entries]
          exact hfind
        obtain ⟨ex, hex, hexid⟩ := create_post_filter_head _ now
          (teacherPeriodDescription t year month) EntryType.SALARY t.gross uid now
          _ _ hfil2 hq
        exact ⟨ex, hex, by rw [hexid, h2]⟩

/-- C5: for each of the five domain documents, a second invocation of
the posting workflow after a first successful invocation returns the
same journal entry with the state unchanged, so no additional
transactions are created: the enrollment, receipt, expense and advance
workflows short-circuit on the stored journal entry link, and the
teacher salary accrual short-circuits on the deterministic period
description lookup. -/
theorem C5_idempotent_posting :
    (∀ (W : World) (enr : Enrollment) (uid now : Nat) (W' : World)
        (enr' : Enrollment) (e : Nat),
      Studentenrollment.create_accrual_enrollment_entry W enr uid now =
        (W', enr', Except.ok (some e)) →
      Studentenrollment.create_accrual_enrollment_entry W' enr' uid now =
        (W', enr', Except.ok (some e))) ∧
    (∀ (W : World) (r : Receipt) (uid now : Nat) (W' : World) (r' : Receipt)
        (e : Nat),
      StudentReceipt.create_accrual_journal_entry W r uid now =
        (W', r', Except.ok (some e)) →
      StudentReceipt.create_accrual_journal_entry W' r' uid now =
        (W', r', Except.ok (some e))) ∧
    (∀ (W : World) (x : Expense) (uid now : Nat) (W' : World) (x' : Expense)
        (e : Nat),
      ExpenseEntry.create_journal_entry W x uid now = (W', x', Except.ok (some e)) →
      ExpenseEntry.create_journal_entry W' x' uid now =
        (W', x', Except.ok (some e))) ∧
    (∀ (W : World) (adv : Advance) (uid now : Nat) (W' : World) (adv' : Advance)
        (e : Nat),
      EmployeeAdvance.create_advance_entry W adv uid now =
        (W', adv', Except.ok (some e)) →
      EmployeeAdvance.create_advance_entry W' adv' uid now =
        (W', adv', Except.ok (some e))) ∧
    (∀ (W : World) (t : Teacher) (uid now year month : Nat) (W' : World) (e : Nat),
      Teacher.create_salary_accrual_entry W t uid now year month =
        (W', Except.ok e) →
      Teacher.create_salary_accrual_entry W' t uid now year month =
        (W', Except.ok e)) := by
  refine ⟨?_, ?_, ?_, ?_, ?_⟩
  · intro W enr uid now W' enr' e h
    exact enroll_short_circuit W' enr' uid now e (enroll_ok_inv W enr uid now W' enr' e h)
  · intro W r uid now W' r' e h
    exact receipt_short_circuit W' r' uid now e (receipt_ok_inv W r uid now W' r' e h)
  · intro W x uid now W' x' e h
    exact expense_short_circuit W' x' uid now e (expense_ok_inv W x uid now W' x' e h)
  · intro W adv uid now W' adv' e h
    exact advance_short_circuit W' adv' uid now e (advance_ok_inv W adv uid now W' adv' e h)
  · intro W t uid now year month W' e h
    obtain ⟨hg, ex, hfind, hexid⟩ := teacher_ok_inv W t uid now year month W' e h
    have := teacher_found_short_circuit W' t uid now year month ex hg hfind
    rw [hexid] at this
    exact this

/-- Witness for C5: on concrete documents, each workflow run a second
time after a successful first run returns the first run's entry with no
state change. -/
theorem C5_idempotent_posting_witness :
    (Studentenrollment.create_accrual_enrollment_entry
        (Studentenrollment.create_accrual_enrollment_entry emptyWorld
          exampleEnrollment 5 0).1
        (Studentenrollment.create_accrual_enrollment_entry emptyWorld
          exampleEnrollment 5 0).2.1 5 0 =
      ((Studentenrollment.create_accrual_enrollment_entry emptyWorld
          exampleEnrollment 5 0).1,
       (Studentenrollment.create_accrual_enrollment_entry emptyWorld
          exampleEnrollment 5 0).2.1, Except.ok (some 1))) ∧
    (StudentReceipt.create_accrual_journal_entry
        (StudentReceipt.create_accrual_journal_entry emptyWorld exampleReceipt 5 0).1
        (StudentReceipt.create_accrual_journal_entry emptyWorld
          exampleReceipt 5 0).2.1 5 0 =
      ((StudentReceipt.create_accrual_journal_entry emptyWorld exampleReceipt 5 0).1,
       (StudentReceipt.create_accrual_journal_entry emptyWorld
          exampleReceipt 5 0).2.1, Except.ok (some 1))) ∧
    (ExpenseEntry.create_journal_entry
        (ExpenseEntry.create_journal_entry expenseWorld exampleExpense 5 0).1
        (ExpenseEntry.create_journal_entry expenseWorld exampleExpense 5 0).2.1 5 0 =
      ((ExpenseEntry.create_journal_entry expenseWorld exampleExpense 5 0).1,
       (ExpenseEntry.create_journal_entry expenseWorld exampleExpense 5 0).2.1,
       Except.ok (some 1))) ∧
    (EmployeeAdvance.create_advance_entry
        (EmployeeAdvance.create_advance_entry emptyWorld exampleAdvance 5 0).1
        (EmployeeAdvance.create_advance_entry emptyWorld exampleAdvance 5 0).2.1 5 0 =
      ((EmployeeAdvance.create_advance_entry emptyWorld exampleAdvance 5 0).1,
       (EmployeeAdvance.create_advance_entry emptyWorld exampleAdvance 5 0).2.1,
       Except.ok (some 1))) ∧
    (Teacher.create_salary_accrual_entry
        (Teacher.create_salary_accrual_entry emptyWorld exampleTeacher 5 0 2024 9).1
        exampleTeacher 5 0 2024 9 =
      ((Teacher.create_salary_accrual_entry emptyWorld exampleTeacher 5 0 2024 9).1,
       Except.ok 1)) := by
  have h1 : Studentenrollment.create_accrual_enrollment_entry emptyWorld
      exampleEnrollment 5 0 =
      ((Studentenrollment.create_accrual_enrollment_entry emptyWorld
          exampleEnrollment 5 0).1,
       (Studentenrollment.create_accrual_enrollment_entry emptyWorld
          exampleEnrollment 5 0).2.1, Except.ok (some 1)) := by
    have h22 : (Studentenrollment.create_accrual_enrollment_entry emptyWorld
        exampleEnrollment 5 0).2.2 = Except.ok (some 1) := by
      with_unfolding_all rfl
    rw [← h22]
  have h2 : StudentReceipt.create_accrual_journal_entry emptyWorld
      exampleReceipt 5 0 =
      ((StudentReceipt.create_accrual_journal_entry emptyWorld exampleReceipt 5 0).1,
       (StudentReceipt.create_accrual_journal_entry emptyWorld
          exampleReceipt 5 0).2.1, Except.ok (some 1)) := by
    have h22 : (StudentReceipt.create_accrual_journal_entry emptyWorld
        exampleReceipt 5 0).2.2 = Except.ok (some 1) := by
      with_unfolding_all rfl
    rw [← h22]
  have h3 : ExpenseEntry.create_journal_entry expenseWorld exampleExpense 5 0 =
      ((ExpenseEntry.create_journal_entry expenseWorld exampleExpense 5 0).1,
       (ExpenseEntry.create_journal_entry expenseWorld exampleExpense 5 0).2.1,
       Except.ok (some 1)) := by
    have h22 : (ExpenseEntry.create_journal_entry expenseWorld
        exampleExpense 5 0).2.2 = Except.ok (some 1) := by
      with_unfolding_all rfl
    rw [← h22]
  have h4 : EmployeeAdvance.create_advance_entry emptyWorld exampleAdvance 5 0 =
      ((EmployeeAdvance.create_advance_entry emptyWorld exampleAdvance 5 0).1,
       (EmployeeAdvance.create_advance_entry emptyWorld exampleAdvance 5 0).2.1,
       Except.ok (some 1)) := by
    have h22 : (EmployeeAdvance.create_advance_entry emptyWorld
        exampleAdvance 5 0).2.2 = Except.ok (some 1) := by
      with_unfolding_all rfl
    rw [← h22]
  have h5 : Teacher.create_salary_accrual_entry emptyWorld exampleTeacher 5 0 2024 9 =
      ((Teacher.create_salary_accrual_entry emptyWorld exampleTeacher 5 0 2024 9).1,
       Except.ok 1) := by
    have h22 : (Teacher.create_salary_accrual_entry emptyWorld
        exampleTeacher 5 0 2024 9).2 = Except.ok 1 := by
      with_unfolding_all rfl
    rw [← h22]
  exact ⟨C5_idempotent_posting.1 emptyWorld exampleEnrollment 5 0 _ _ 1 h1,
    C5_idempotent_posting.2.1 emptyWorld exampleReceipt 5 0 _ _ 1 h2,
    C5_idempotent_posting.2.2.1 expenseWorld exampleExpense 5 0 _ _ 1 h3,
    C5_idempotent_posting.2.2.2.1 emptyWorld exampleAdvance 5 0 _ _ 1 h4,
    C5_idempotent_posting.2.2.2.2 emptyWorld exampleTeacher 5 0 2024 9 _ 1 h5⟩

/- ------------------------------------------------------------------ -/
/- C2: reversal symmetry.                                             -/
/- ------------------------------------------------------------------ -/

theorem filter_eq_nil_of_all {α : Type} (l : List α) (p : α → Bool)
    (h : ∀ a ∈ l, p a = false) : l.filter p = [] := by
  induction l with
  | nil => rfl
  | cons x xs ih =>
    rw [List.filter_cons, h x (List.mem_cons_self x xs)]
    simp only [Bool.false_eq_true, if_false]
    exact ih (fun a ha => h a (List.mem_cons_of_mem x ha))

theorem debitSum_cons (t : Txn) (ts : List Txn) :
    debitSum (t :: ts) = (if t.isDebit then t.amount else 0) + debitSum ts := by
  cases hd : t.isDebit <;> simp [debitSum, List.filter_cons, hd]

theorem creditSum_cons (t : Txn) (ts : List Txn) :
    creditSum (t :: ts) = (if t.isDebit then 0 else t.amount) + creditSum ts := by
  cases hd : t.isDebit <;> simp [creditSum, List.filter_cons, hd]

theorem debitSum_append (l₁ l₂ : List Txn) :
    debitSum (l₁ ++ l₂) = debitSum l₁ + debitSum l₂ := by
  simp [debitSum, List.filter_append]

theorem creditSum_append (l₁ l₂ : List Txn) :
    creditSum (l₁ ++ l₂) = creditSum l₁ + creditSum l₂ := by
  simp [creditSum, List.filter_append]

theorem filter_account_revmap (nid aid : Nat) (l : List Txn) :
    ((l.map (revTxnOf nid)).filter fun t => decide (t.accountId = aid)) =
      (l.filter fun t => decide (t.accountId = aid)).map (revTxnOf nid) := by
  rw [List.filter_map]
  have hp : ((fun t : Txn => decide (t.accountId = aid)) ∘ revTxnOf nid) =
      fun t : Txn => decide (t.accountId = aid) := funext fun t => by simp [revTxnOf]
  rw [hp]

theorem debitSum_revmap (nid : Nat) (l : List Txn) :
    debitSum (l.map (revTxnOf nid)) = creditSum l := by
  unfold debitSum creditSum
  rw [List.filter_map]
  have hp : ((fun t : Txn => t.isDebit) ∘ revTxnOf nid) =
      fun t : Txn => !t.isDebit := funext fun t => by simp [revTxnOf]
  rw [hp, List.map_map]
  have ha : Txn.amount ∘ revTxnOf nid = Txn.amount := funext fun t => rfl
  rw [ha]

theorem creditSum_revmap (nid : Nat) (l : List Txn) :
    creditSum (l.map (revTxnOf nid)) = debitSum l := by
  unfold debitSum creditSum
  rw [List.filter_map]
  have hp : ((fun t : Txn => !t.isDebit) ∘ revTxnOf nid) =
      fun t : Txn => t.isDebit := funext fun t => by simp [revTxnOf]
  rw [hp, List.map_map]
  have ha : Txn.amount ∘ revTxnOf nid = Txn.amount := funext fun t => rfl
  rw [ha]

theorem debitSum_split (l : List Txn) (q : Txn → Bool) :
    debitSum l = debitSum (l.filter q) + debitSum (l.filter fun t => !(q t)) := by
  induction l with
  | nil => simp [debitSum]
  | cons t ts ih =>
    rw [debitSum_cons, ih]
    cases hq : q t
    · simp only [List.filter_cons, hq, Bool.not_false, Bool.false_eq_true, if_false,
        if_true, debitSum_cons]
      ring
    · simp only [List.filter_cons, hq, Bool.not_true, Bool.false_eq_true, if_false,
        if_true, debitSum_cons]
      ring

theorem creditSum_split (l : List Txn) (q : Txn → Bool) :
    creditSum l = creditSum (l.filter q) + creditSum (l.filter fun t => !(q t)) := by
  induction l with
  | nil => simp [creditSum]
  | cons t ts ih =>
    rw [creditSum_cons, ih]
    cases hq : q t
    · simp only [List.filter_cons, hq, Bool.not_false, Bool.false_eq_true, if_false,
        if_true, creditSum_cons]
      ring
    · simp only [List.filter_cons, hq, Bool.not_true, Bool.false_eq_true, if_false,
        if_true, creditSum_cons]
      ring

theorem rev_cancel (ts : List Txn) (eid nid aid : Nat) :
    debitSum ((ts ++ (ts.filter fun t => decide (t.entryId = eid)).map
        (revTxnOf nid)).filter fun t => decide (t.accountId = aid)) -
      creditSum ((ts ++ (ts.filter fun t => decide (t.entryId = eid)).map
        (revTxnOf nid)).filter fun t => decide (t.accountId = aid)) =
    debitSum ((ts.filter fun t => decide (t.entryId ≠ eid)).filter
        fun t => decide (t.accountId = aid)) -
      creditSum ((ts.filter fun t => decide (t.entryId ≠ eid)).filter
        fun t => decide (t.accountId = aid)) := by
  have hne : (fun t : Txn => decide (t.entryId ≠ eid)) =
      fun t : Txn => !(decide (t.entryId = eid)) := funext fun t => decide_not
  rw [hne, List.filter_append, filter_account_revmap, debitSum_append,
    creditSum_append, debitSum_revmap, creditSum_revmap,
    List.filter_comm (fun t : Txn => decide (t.accountId = aid))
      (fun t : Txn => decide (t.entryId = eid)) ts,
    List.filter_comm (fun t : Txn => decide (t.accountId = aid))
      (fun t : Txn => !(decide (t.entryId = eid))) ts,
    debitSum_split (ts.filter fun t : Txn => decide (t.accountId = aid))
      (fun t : Txn => decide (t.entryId = eid)),
    creditSum_split (ts.filter fun t : Txn => decide (t.accountId = aid))
      (fun t : Txn => decide (t.entryId = eid))]
  ring

theorem get_net_eq_typeOf (V : World) (aid : Nat) :
    Account.get_net_balance V aid =
      (match typeOf V aid with
       | none => 0
       | some ty =>
         if ty = AccountType.ASSET ∨ ty = AccountType.EXPENSE then
           debitSum (accountTxns V aid) - creditSum (accountTxns V aid)
         else
           creditSum (accountTxns V aid) - debitSum (accountTxns V aid)) := by
  unfold Account.get_net_balance typeOf
  cases findAccount V aid <;> rfl

theorem reverse_entry_unposted (W : World) (eid uid now : Nat) (e : EntryData)
    (desc : Option String) (he : findEntry W eid = some e)
    (hp : e.isPosted = false) :
    JournalEntry.reverse_entry W eid uid now desc =
      (W, Except.error "Cannot reverse unposted entry") := by
  simp only [JournalEntry.reverse_entry, he, hp]
  simp

theorem reverse_entry_posted_eq (W : World) (eid uid now : Nat) (e : EntryData)
    (he : findEntry W eid = some e) (hp : e.isPosted = true) :
    JournalEntry.reverse_entry W eid uid now none =
      (match (JournalEntry.post_entry (reversalDraftWorld W eid e uid now)
          W.nextEntryId uid now).2 with
       | some msg => ((JournalEntry.post_entry (reversalDraftWorld W eid e uid now)
           W.nextEntryId uid now).1, Except.error msg)
       | none => ((JournalEntry.post_entry (reversalDraftWorld W eid e uid now)
           W.nextEntryId uid now).1, Except.ok W.nextEntryId)) := by
  simp only [JournalEntry.reverse_entry, he, hp]
  simp only [not_true, if_false, Bool.not_true]
  rfl

/-- C2: reversing an unposted entry fails; reversing a posted balanced
entry creates and posts a new ADJUSTMENT entry whose transactions are
the original ones with the debit/credit flag inverted, and afterwards
every account's net balance equals the net balance computed with the
reversed entry's transactions excluded, so the combined effect of the
entry and its reversal on every account is zero. -/
theorem C2_reverse_entry (W : World) (eid uid now : Nat) (e : EntryData)
    (hw : WellFormed W) (he : findEntry W eid = some e) :
    (e.isPosted = false →
      JournalEntry.reverse_entry W eid uid now none =
        (W, Except.error "Cannot reverse unposted entry")) ∧
    (e.isPosted = true →
      |JournalEntry.get_total_debits W eid - JournalEntry.get_total_credits W eid| <
        (1 / 100 : Rat) →
      (JournalEntry.reverse_entry W eid uid now none).2 = Except.ok W.nextEntryId ∧
      entryTxns (JournalEntry.reverse_entry W eid uid now none).1 W.nextEntryId =
        (entryTxns W eid).map (revTxnOf W.nextEntryId) ∧
      (findEntry (JournalEntry.reverse_entry W eid uid now none).1
          W.nextEntryId).map (fun x => (x.entryType, x.isPosted)) =
        some (EntryType.ADJUSTMENT, true) ∧
      (∀ aid, Account.get_net_balance
          (JournalEntry.reverse_entry W eid uid now none).1 aid =
        Account.net_balance_excluding W aid eid)) := by
  constructor
  · intro hp
    exact reverse_entry_unposted W eid uid now e none he hp
  · intro hp hblt
    have hfe1 : findEntry (reversalDraftWorld W eid e uid now) W.nextEntryId =
        some (reversalEntryRecord W e uid now) := by
      unfold findEntry reversalDraftWorld
      rw [List.find?_append]
      rw [find?_eq_none_of_all W.entries _
        (fun a ha => decide_eq_false (Nat.ne_of_lt (hw.1 a ha)))]
      simp [reversalEntryRecord]
    have htx1 : entryTxns (reversalDraftWorld W eid e uid now) W.nextEntryId =
        (entryTxns W eid).map (revTxnOf W.nextEntryId) := by
      show ((reversalDraftWorld W eid e uid now).txns.filter
        fun t => decide (t.entryId = W.nextEntryId)) = _
      rw [show (reversalDraftWorld W eid e uid now).txns =
        W.txns ++ (entryTxns W eid).map (revTxnOf W.nextEntryId) from rfl]
      rw [List.filter_append]
      rw [filter_eq_nil_of_all W.txns _
        (fun t ht => decide_eq_false (Nat.ne_of_lt (hw.2.1 t ht)))]
      rw [List.nil_append]
      apply List.filter_eq_self.mpr
      intro a ha
      obtain ⟨t', _, rfl⟩ := List.mem_map.mp ha
      simp [revTxnOf]
    have hb1 : JournalEntry.is_balanced (reversalDraftWorld W eid e uid now)
        W.nextEntryId = true := by
      unfold JournalEntry.is_balanced JournalEntry.get_total_debits
        JournalEntry.get_total_credits
      rw [htx1, debitSum_revmap, creditSum_revmap]
      apply decide_eq_true
      rw [abs_sub_comm]
      exact hblt
    have hpost := post_entry_success_eq (reversalDraftWorld W eid e uid now)
      W.nextEntryId uid now (reversalEntryRecord W e uid now) hfe1 rfl hb1
    have hrw := reverse_entry_posted_eq W eid uid now e he hp
    rw [hpost] at hrw
    dsimp only at hrw
    rw [hrw]
    dsimp only
    have hW2tx : ((entryTxns (reversalDraftWorld W eid e uid now)
        W.nextEntryId).foldl
        (fun acc t => Account.recalculate_tree_balances acc t.accountId)
        (setEntryPosted (reversalDraftWorld W eid e uid now)
          W.nextEntryId uid now)).txns =
        (reversalDraftWorld W eid e uid now).txns := by
      rw [recalcTreeFold_txns]
      rfl
    refine ⟨rfl, ?_, ?_, ?_⟩
    · show ((entryTxns (reversalDraftWorld W eid e uid now)
          W.nextEntryId).foldl
          (fun acc t => Account.recalculate_tree_balances acc t.accountId)
          (setEntryPosted (reversalDraftWorld W eid e uid now)
            W.nextEntryId uid now)).txns.filter
          (fun t => decide (t.entryId = W.nextEntryId)) = _
      rw [hW2tx]
      exact htx1
    · have hent : ((entryTxns (reversalDraftWorld W eid e uid now)
          W.nextEntryId).foldl
          (fun acc t => Account.recalculate_tree_balances acc t.accountId)
          (setEntryPosted (reversalDraftWorld W eid e uid now)
            W.nextEntryId uid now)).entries =
          (W.entries ++ [reversalEntryRecord W e uid now]).map
            (fun e' => if e'.id = W.nextEntryId then
              { e' with isPosted := true, postedAt := some now,
                        postedBy := some uid }
              else e') := by
        rw [recalcTreeFold_entries]
        rfl
      unfold findEntry
      rw [hent, List.map_append, List.find?_append]
      rw [find?_eq_none_of_all _ _ ?hnone]
      case hnone =>
        intro a ha
        obtain ⟨b, hb, rfl⟩ := List.mem_map.mp ha
        apply decide_eq_false
        intro hc
        have hbid : (if b.id = W.nextEntryId then
            { b with isPosted := true, postedAt := some now, postedBy := some uid }
            else b).id = b.id := by
          by_cases h : b.id = W.nextEntryId <;> simp [h]
        rw [hbid] at hc
        have := hw.1 b hb
        omega
      simp [reversalEntryRecord]
    · intro aid
      rw [get_net_eq_typeOf]
      have hty : typeOf ((entryTxns (reversalDraftWorld W eid e uid now)
          W.nextEntryId).foldl
          (fun acc t => Account.recalculate_tree_balances acc t.accountId)
          (setEntryPosted (reversalDraftWorld W eid e uid now)
            W.nextEntryId uid now)) aid = typeOf W aid := by
        rw [recalcTreeFold_typeOf]
        rfl
      rw [hty]
      have htxW2 : accountTxns ((entryTxns (reversalDraftWorld W eid e uid now)
          W.nextEntryId).foldl
          (fun acc t => Account.recalculate_tree_balances acc t.accountId)
          (setEntryPosted (reversalDraftWorld W eid e uid now)
            W.nextEntryId uid now)) aid =
          (W.txns ++ (entryTxns W eid).map (revTxnOf W.nextEntryId)).filter
            (fun t => decide (t.accountId = aid)) := by
        unfold accountTxns
        rw [hW2tx]
        rfl
      rw [htxW2]
      unfold Account.net_balance_excluding
      rw [get_net_eq_typeOf]
      have hty2 : typeOf { W with
            txns := W.txns.filter (fun t => decide (t.entryId ≠ eid)) } aid =
          typeOf W aid := rfl
      rw [hty2]
      have htx2 : accountTxns { W with
            txns := W.txns.filter (fun t => decide (t.entryId ≠ eid)) } aid =
          (W.txns.filter (fun t => decide (t.entryId ≠ eid))).filter
            (fun t => decide (t.accountId = aid)) := rfl
      rw [htx2]
      cases typeOf W aid with
      | none => rfl
      | some ty =>
        dsimp only
        by_cases hty3 : ty = AccountType.ASSET ∨ ty = AccountType.EXPENSE
        · rw [if_pos hty3, if_pos hty3]
          exact rev_cancel W.txns eid W.nextEntryId aid
        · rw [if_neg hty3, if_neg hty3]
          have h := rev_cancel W.txns eid W.nextEntryId aid
          unfold entryTxns
          linarith

/-- Witness for C2 on the concrete posted entry: the reversal gets id 2,
its transactions are the flag-inverted originals, and the cash account
net balance equals the net balance with entry 1 excluded. -/
theorem C2_reverse_entry_witness :
    (JournalEntry.reverse_entry reverseExampleWorld 1 5 7 none).2 = Except.ok 2 ∧
    entryTxns (JournalEntry.reverse_entry reverseExampleWorld 1 5 7 none).1 2 =
      (entryTxns reverseExampleWorld 1).map (revTxnOf 2) ∧
    Account.get_net_balance
      (JournalEntry.reverse_entry reverseExampleWorld 1 5 7 none).1 1 =
      Account.net_balance_excluding reverseExampleWorld 1 1 := by
  have h := (C2_reverse_entry reverseExampleWorld 1 5 7
    { id := 1, reference := "JE-000001", date := 0, description := "",
      entryType := EntryType.MANUAL, totalAmount := 100, isPosted := true,
      postedAt := some 0, postedBy := some 5, createdBy := 5 }
    (by decide) (by decide)).2 rfl (by with_unfolding_all decide)
  exact ⟨h.1, h.2.1, h.2.2.2 1⟩

end Alyaman
